import Mathlib

/-!
Shallow embedding of the GhostInput per-tab timer scheduling and
execution-recovery engine (the background service worker and the instance
storage layer), together with theorems settling the frozen claims about it.

Modelling conventions:
* JS numbers (intervals, counts, timestamps, limits) are rationals.
* chrome.storage.local is modelled by the actions / settings / logs fields of
  SysState; executeWithRetry serializes storage operations per operation name,
  so each orchestrator operation is a pure state transformer.
* setTimeout and clearTimeout are modelled by the liveTimers list of timer
  ids: setTimeout allocates a fresh id (nextTimerId) and adds it, clearTimeout
  erases it; a callback can only ever run for an id still in liveTimers.
* Math.random() is an injected rational in [0,1) (CycleEnv.random); Date.now()
  is an injected rational (CycleEnv.now, one reading per cycle).
* chrome.tabs.get, chrome.scripting.executeScript, chrome.notifications and
  the badge are external collaborators: tab lookup and injection outcomes are
  injected through CycleEnv, notifications and badge values are recorded in
  SysState fields.
* Absent JS object fields are modelled as an empty list (instances) or
  Option.none (nextExecution, lastExecuted, urlFilter, repeatLimit, timeLimit).
-/

namespace GhostInput

/-- The four supported time units (types.ts TimeUnit). -/
inductive TimeUnit
  | milliseconds
  | seconds
  | minutes
  | hours
  deriving DecidableEq, Repr

/-- One (action, tab) binding as stored by storage.js (types.ts ActionInstance). -/
structure ActionInstance where
  enabled : Bool
  executionCount : ℚ
  startedAt : ℚ
  tabTitle : String
  nextExecution : Option ℚ := none
  lastExecuted : Option ℚ := none
  deriving DecidableEq, Repr

/-- An action definition (types.ts Action), restricted to the fields the
scheduling engine reads.  The input-simulation fields (key, keyInfo,
mouseAction, modifiers, createdAt) never influence scheduling and are omitted.
The instances record is an association list keyed by tab id. -/
structure Action where
  id : String
  name : String
  type : String
  interval : ℚ
  timeUnit : TimeUnit
  randomize : Bool
  randomizeMin : ℚ
  randomizeMax : ℚ
  urlFilter : Option String := none
  repeatLimit : Option ℚ := none
  timeLimit : Option ℚ := none
  instances : List (Nat × ActionInstance) := []
  deriving DecidableEq, Repr

/-- Extension settings (types.ts Settings), restricted to the fields the
engine reads: globalEnabled, notifications and maxLogs. -/
structure Settings where
  globalEnabled : Bool
  notifications : Bool
  maxLogs : Nat
  deriving DecidableEq, Repr

/-- A log record (types.ts LogEntry); the type/key fields are omitted as they
never influence control flow. -/
structure LogEntry where
  actionId : String
  actionName : String
  success : Bool
  error : Option String := none
  tabId : Option Nat := none
  timestamp : ℚ
  deriving DecidableEq, Repr

/-- An in-memory timer registry entry (types.ts TimerInfo). -/
structure TimerInfo where
  timerId : Nat
  nextExecution : ℚ
  intervalMs : ℚ
  actionId : String
  tabId : Nat
  deriving DecidableEq, Repr

/-- The result of chrome.tabs.get for a live tab. -/
structure TabInfo where
  id : Nat
  url : String
  title : String
  deriving DecidableEq, Repr

/-- The whole observable system state: the persistent store (actions,
settings, logs), the in-memory maps of the service worker (activeTimers,
errorRecoveryAttempts, isInit for the isInitialized flag), the wall-clock
timer bookkeeping (liveTimers, nextTimerId) and the externally visible
notification / badge effects. -/
structure SysState where
  actions : List Action
  settings : Settings
  logs : List LogEntry := []
  activeTimers : List (String × TimerInfo) := []
  errorRecoveryAttempts : List (String × Nat) := []
  liveTimers : List Nat := []
  nextTimerId : Nat := 1
  notificationsShown : List (String × String) := []
  badge : Nat := 0
  isInit : Bool := false
  deriving DecidableEq, Repr

/-- Environment for one orchestrator operation: the injected clock, random
source, tab-resolution result and script-injection outcome. -/
structure CycleEnv where
  now : ℚ
  random : ℚ := 0
  tab : Option TabInfo := none
  inject : Except String Unit := Except.ok ()
  deriving Repr

/-! ### Association-list operations (JS Map / Record semantics) -/

/-- Lookup in an association list (Map.get / record indexing). -/
def alistGet [DecidableEq κ] : List (κ × α) → κ → Option α
  | [], _ => none
  | (k', v) :: rest, k => if k' = k then some v else alistGet rest k

/-- Update in an association list: replaces the first binding in place, or
appends at the end (JS Map.set / record field assignment). -/
def alistSet [DecidableEq κ] : List (κ × α) → κ → α → List (κ × α)
  | [], k, v => [(k, v)]
  | (k', v') :: rest, k, v =>
      if k' = k then (k, v) :: rest else (k', v') :: alistSet rest k v

/-- Deletion from an association list (Map.delete / delete record[k]). -/
def alistDel [DecidableEq κ] : List (κ × α) → κ → List (κ × α)
  | [], _ => []
  | (k', v') :: rest, k =>
      if k' = k then alistDel rest k else (k', v') :: alistDel rest k

/-! ### Numeric helpers for JS arithmetic -/

/-- JS truncating division toward zero, used by the % remainder operator. -/
def ratTrunc (q : ℚ) : ℤ := q.num / (q.den : ℤ)

/-- The JS % remainder operator on numbers. -/
def jsMod (a b : ℚ) : ℚ := a - b * (ratTrunc (a / b) : ℚ)

/-- JS truthiness of an optional number (null and 0 are falsy). -/
def optNumTruthy : Option ℚ → Bool
  | none => false
  | some q => decide (q ≠ 0)

/-- JS truthiness of an optional string (null and the empty string are falsy). -/
def optStrTruthy : Option String → Bool
  | none => false
  | some str => decide (str ≠ "")

/-! ### Constants (background worker and storage.js) -/

/-- Maximum error recovery attempts per action (MAX_RECOVERY_ATTEMPTS). -/
def MAX_RECOVERY_ATTEMPTS : Nat := 3

/-- Maximum interval cap to prevent overflow issues, 24 hours (MAX_INTERVAL_MS). -/
def MAX_INTERVAL_MS : ℚ := 24 * 60 * 60 * 1000

/-- Minimum interval to prevent excessive CPU usage, 100ms (MIN_INTERVAL_MS). -/
def MIN_INTERVAL_MS : ℚ := 100

/-- Maximum number of instances per action (MAX_INSTANCES_PER_ACTION, storage.js). -/
def MAX_INSTANCES_PER_ACTION : Nat := 5

/-- The activeTimers / errorRecoveryAttempts map key for an (action, tab)
pair: the template string actionId-tabId. -/
def timerKey (actionId : String) (tabId : Nat) : String :=
  actionId ++ "-" ++ toString tabId

/-! ### Interval Calculator (calculateInterval) -/

/-- The per-unit millisecond multiplier applied by the switch statements in
calculateInterval (milliseconds has no case there: multiplier 1). -/
def unitMultiplier : TimeUnit → ℚ
  | TimeUnit.milliseconds => 1
  | TimeUnit.seconds => 1000
  | TimeUnit.minutes => 60000
  | TimeUnit.hours => 3600000

/-- calculateInterval: unit-normalizes the configured interval, clamps it to
[MIN_INTERVAL_MS, MAX_INTERVAL_MS], and, when randomization is active with a
positive converted maximum, instead returns the floor draw
floor(random * (max - min + 1) + min) over the converted range (with max
coerced up to min first).  The argument random is the injected Math.random()
value. -/
def calculateInterval (action : Action) (random : ℚ) : ℚ :=
  let baseMs := action.interval * unitMultiplier action.timeUnit
  let baseMs := max MIN_INTERVAL_MS (min MAX_INTERVAL_MS baseMs)
  if action.randomize && (action.randomizeMin != 0 || action.randomizeMax != 0) then
    let mn := action.randomizeMin
    let mx := action.randomizeMax
    let mx := if mx < mn then mn else mx
    let mn := mn * unitMultiplier action.timeUnit
    let mx := mx * unitMultiplier action.timeUnit
    if 0 < mx then (⌊random * (mx - mn + 1) + mn⌋ : ℤ) else baseMs
  else baseMs

/-! ### Instance Store Adapter (storage.js)

The store keeps the raw actions array; getActions validates each record with
validateAction and silently filters out invalid ones, so every consumer
operates on the filtered list and saveActions writes that filtered list back.
saveActions re-validates; because its input always comes from a getActions
result modified by an instance operation that preserves validity, that
re-validation can never fail on the paths modelled here. -/

/-- validateAction as a Boolean predicate: non-empty id and name, type key or
mouse, numeric interval of at least 1, and at most MAX_INSTANCES_PER_ACTION
instances. -/
def validAction (a : Action) : Bool :=
  decide (a.id ≠ "") && decide (a.name ≠ "") &&
  (decide (a.type = "key") || decide (a.type = "mouse")) &&
  decide (1 ≤ a.interval) &&
  decide (a.instances.length ≤ MAX_INSTANCES_PER_ACTION)

/-- getActions: read the stored actions array, filtering out records that
fail validateAction. -/
def getActions (s : SysState) : List Action :=
  s.actions.filter validAction

/-- actions.find over a getActions result: the first action whose id equals
actionId. -/
def findAction (actions : List Action) (actionId : String) : Option Action :=
  actions.find? (fun a => a.id == actionId)

/-- Replace the first action whose id matches, leaving the rest unchanged;
this is how the JS code mutates the object found in the array before calling
saveActions on the whole array. -/
def replaceFirstAction : List Action → String → Action → List Action
  | [], _, _ => []
  | a :: rest, actionId, a' =>
      if a.id = actionId then a' :: rest else a :: replaceFirstAction rest actionId a'

/-- saveActions: overwrite the stored actions array. -/
def saveActions (s : SysState) (actions : List Action) : SysState :=
  { s with actions := actions }

/-- A partial ActionInstance record, the updates argument of
updateActionInstance (only the fields actually passed somewhere). -/
structure InstanceUpdate where
  executionCount : Option ℚ := none
  nextExecution : Option ℚ := none
  lastExecuted : Option ℚ := none
  deriving DecidableEq, Repr

/-- Spread-merge of an update object into an instance, as the object spread
of updates over the old instance record does. -/
def applyInstanceUpdate (inst : ActionInstance) (u : InstanceUpdate) : ActionInstance :=
  { inst with
    executionCount := u.executionCount.getD inst.executionCount
    nextExecution := match u.nextExecution with
      | some v => some v
      | none => inst.nextExecution
    lastExecuted := match u.lastExecuted with
      | some v => some v
      | none => inst.lastExecuted }

/-- updateActionInstance: merge the given fields into the stored instance;
returns the state unchanged (JS returns null without saving) when the action
or the instance does not exist. -/
def updateActionInstance (s : SysState) (actionId : String) (tabId : Nat)
    (u : InstanceUpdate) : SysState :=
  let actions := getActions s
  match findAction actions actionId with
  | none => s
  | some action =>
    match alistGet action.instances tabId with
    | none => s
    | some inst =>
      let action' := { action with
        instances := alistSet action.instances tabId (applyInstanceUpdate inst u) }
      saveActions s (replaceFirstAction actions actionId action')

/-- removeActionInstance: delete the instance binding for the tab; returns
the state unchanged (JS returns null without saving) when the action does not
exist. -/
def removeActionInstance (s : SysState) (actionId : String) (tabId : Nat) : SysState :=
  let actions := getActions s
  match findAction actions actionId with
  | none => s
  | some action =>
    let action' := { action with instances := alistDel action.instances tabId }
    saveActions s (replaceFirstAction actions actionId action')

/-- addActionInstance: validate the arguments, enforce the
MAX_INSTANCES_PER_ACTION limit only when the tab is not already bound, and
overwrite the binding with a fresh enabled instance (executionCount 0,
startedAt now).  Errors are the thrown ValidationError messages. -/
def addActionInstance (s : SysState) (actionId : String) (tabId : Nat)
    (tabTitle : Option String) (now : ℚ) : Except String SysState :=
  if actionId = "" then Except.error "actionId must be a non-empty string"
  else if tabId = 0 then Except.error "tabId must be a positive number"
  else
    let actions := getActions s
    match findAction actions actionId with
    | none => Except.error ("Action " ++ actionId ++ " not found")
    | some action =>
      if MAX_INSTANCES_PER_ACTION ≤ action.instances.length
          && (alistGet action.instances tabId).isNone then
        Except.error "Max 5 tabs per action"
      else
        let inst : ActionInstance :=
          { enabled := true
            executionCount := 0
            startedAt := now
            tabTitle := match tabTitle with
              | some t => if t = "" then "Tab " ++ toString tabId else t
              | none => "Tab " ++ toString tabId }
        let action' := { action with instances := alistSet action.instances tabId inst }
        Except.ok (saveActions s (replaceFirstAction actions actionId action'))

/-- addLog: prepend the entry and truncate to settings.maxLogs. -/
def addLog (s : SysState) (entry : LogEntry) : SysState :=
  let logs := entry :: s.logs
  let logs := if s.settings.maxLogs < logs.length then logs.take s.settings.maxLogs else logs
  { s with logs := logs }

/-! ### Badge, notifications, wall-clock timers -/

/-- updateBadge: record the badge count (the badge text and color are pure
display concerns of chrome.action). -/
def updateBadge (s : SysState) (count : Nat) : SysState :=
  { s with badge := count }

/-- The number of enabled instances across all actions, as counted by
refreshBadge. -/
def countEnabledInstances (actions : List Action) : Nat :=
  (actions.map (fun a => (a.instances.filter (fun p => p.2.enabled)).length)).sum

/-- refreshBadge: zero when global scheduling is disabled, otherwise the
total number of enabled instances. -/
def refreshBadge (s : SysState) : SysState :=
  if s.settings.globalEnabled then updateBadge s (countEnabledInstances (getActions s))
  else updateBadge s 0

/-- notifyCompletion: emit the Task Completed notification. -/
def notifyCompletion (s : SysState) (name : String) (reason : String) : SysState :=
  { s with notificationsShown :=
      ("Task Completed", "Action \"" ++ name ++ "\" finished after " ++ reason)
        :: s.notificationsShown }

/-- clearTimeout: a cancelled timer id is removed from the live set, so its
callback can never run afterwards. -/
def cancelTimer (s : SysState) (tid : Nat) : SysState :=
  { s with liveTimers := s.liveTimers.erase tid }

/-- clearAllTimers: clearTimeout every registered timer and empty the map. -/
def clearAllTimers (s : SysState) : SysState :=
  let s := s.activeTimers.foldl (fun st p => cancelTimer st p.2.timerId) s
  { s with activeTimers := [] }

/-! ### JS string primitives, modelled on the character list -/

/-- JS String.prototype.startsWith. -/
def jsStartsWith (s p : String) : Bool :=
  p.data.isPrefixOf s.data

/-- Substring occurrence test on character lists. -/
def listIsInfixOf : List Char → List Char → Bool
  | needle, [] => needle.isEmpty
  | needle, c :: rest => needle.isPrefixOf (c :: rest) || listIsInfixOf needle rest

/-- JS String.prototype.includes. -/
def strIncludes (hay needle : String) : Bool :=
  listIsInfixOf needle.data hay.data

/-- JS String.prototype.toLowerCase, for the ASCII range of URLs and filter
patterns. -/
def charToLower (c : Char) : Char :=
  if 65 ≤ c.toNat ∧ c.toNat ≤ 90 then Char.ofNat (c.toNat + 32) else c

/-- JS String.prototype.toLowerCase. -/
def jsToLower (s : String) : String :=
  String.mk (s.data.map charToLower)

/-- JS whitespace recognized by String.prototype.trim (ASCII subset). -/
def isJsSpace (c : Char) : Bool :=
  c == ' ' || c == '\t' || c == '\n' || c == '\r'

/-- JS String.prototype.trim. -/
def jsTrim (s : String) : String :=
  String.mk (((s.data.dropWhile isJsSpace).reverse.dropWhile isJsSpace).reverse)

/-- Helper for splitting a character list at commas. -/
def splitCommaAux : List Char → List Char → List String
  | [], acc => [String.mk acc.reverse]
  | c :: rest, acc =>
      if c = ',' then String.mk acc.reverse :: splitCommaAux rest []
      else splitCommaAux rest (c :: acc)

/-- JS String.prototype.split at a comma. -/
def jsSplitComma (s : String) : List String :=
  splitCommaAux s.data []

/-! ### Execution Dispatcher (executeAction, matchesUrlFilter) -/

/-- The restricted URL schemes skipped by executeAction: browser-internal,
extension and local file pages. -/
def isRestrictedUrl (url : String) : Bool :=
  jsStartsWith url "chrome://" || jsStartsWith url "edge://" ||
  jsStartsWith url "chrome-extension://" || jsStartsWith url "about:" ||
  jsStartsWith url "file://"

/-- matchesUrlFilter: case-insensitive substring match of the URL against the
comma-separated patterns; a pattern of the shape star-dot-domain means the URL
contains the domain.  Empty url or filter match trivially. -/
def matchesUrlFilter (url : String) (filter : String) : Bool :=
  if filter = "" || url = "" then true
  else
    let filters := (jsSplitComma filter).map (fun f => jsToLower (jsTrim f))
    let urlLower := jsToLower url
    filters.any (fun f =>
      if jsStartsWith f "*." then strIncludes urlLower (String.mk (f.data.drop 2))
      else strIncludes urlLower f)

/-- executeAction: reject a dead tab reference, silently skip (and succeed)
on restricted URLs without injecting anything, otherwise perform the script
injection whose outcome is the injected inject argument, wrapping an
injection failure in an ExecutionError message. -/
def executeAction (action : Action) (tab : TabInfo)
    (inject : Except String Unit) : Except String Unit :=
  if tab.id = 0 then Except.error "Invalid tab"
  else if isRestrictedUrl tab.url then Except.ok ()
  else
    match inject with
    | Except.ok _ => Except.ok ()
    | Except.error m => Except.error ("Script injection failed: " ++ m)

/-! ### Timer Registry arming (scheduleActionOnTab) -/

/-- scheduleActionOnTab: compute the interval, reject it when outside
[MIN_INTERVAL_MS, MAX_INTERVAL_MS] (thrown before any mutation), cancel any
existing timer for the key, create a fresh wall-clock timer, store the
TimerInfo entry last-writer-wins, and record the advisory nextExecution in
the instance. -/
def scheduleActionOnTab (s : SysState) (action : Action) (tabId : Nat)
    (env : CycleEnv) : Except String SysState :=
  let intervalMs := calculateInterval action env.random
  if intervalMs < MIN_INTERVAL_MS || MAX_INTERVAL_MS < intervalMs then
    Except.error "Invalid interval"
  else
    let nextExecution := env.now + intervalMs
    let key := timerKey action.id tabId
    let s := match alistGet s.activeTimers key with
      | some old => cancelTimer s old.timerId
      | none => s
    let tid := s.nextTimerId
    let s := { s with
      nextTimerId := tid + 1
      liveTimers := tid :: s.liveTimers
      activeTimers := alistSet s.activeTimers key
        { timerId := tid, nextExecution := nextExecution, intervalMs := intervalMs
          actionId := action.id, tabId := tabId } }
    Except.ok (updateActionInstance s action.id tabId { nextExecution := some nextExecution })

/-! ### Stopping (stopActionOnTab) -/

/-- stopActionOnTab: cancel and drop the timer entry, discard the recovery
counter, remove the persisted instance, refresh the badge.  Every step is a
no-op when the corresponding entry is already absent. -/
def stopActionOnTab (s : SysState) (actionId : String) (tabId : Nat) : SysState :=
  let key := timerKey actionId tabId
  let s := match alistGet s.activeTimers key with
    | some ti => cancelTimer s ti.timerId
    | none => s
  let s := { s with
    activeTimers := alistDel s.activeTimers key
    errorRecoveryAttempts := alistDel s.errorRecoveryAttempts key }
  let s := removeActionInstance s actionId tabId
  refreshBadge s

/-! ### Execution-and-reschedule cycle (executeAndRescheduleOnTab) -/

/-- Instrumentation tag naming which exit path a cycle took; the JS function
returns void, this tag only records the branch for the theorems below. -/
inductive CycleExit
  | noInstance
  | disabledInstance
  | globallyDisabled
  | tabGone
  | urlFilterSkip
  | aborted
  | retryScheduled
  | repeatLimitStop
  | timeLimitStop
  | rescheduled
  | errorRescheduled
  | errorCleanup
  deriving DecidableEq, Repr

/-- The try-block of executeAndRescheduleOnTab.  An Except.error result
models an exception escaping to the outer catch and carries the state at the
throw point (the only throwing step on these paths is scheduleActionOnTab,
which throws before mutating anything). -/
def executeAndRescheduleBody (s : SysState) (actionId : String) (tabId : Nat)
    (env : CycleEnv) : Except SysState (SysState × CycleExit) :=
  let key := timerKey actionId tabId
  let actions := getActions s
  match findAction actions actionId with
  | none =>
      Except.ok (refreshBadge { s with activeTimers := alistDel s.activeTimers key },
        CycleExit.noInstance)
  | some action =>
    match alistGet action.instances tabId with
    | none =>
        Except.ok (refreshBadge { s with activeTimers := alistDel s.activeTimers key },
          CycleExit.noInstance)
    | some inst =>
      if !inst.enabled then
        Except.ok (refreshBadge { s with activeTimers := alistDel s.activeTimers key },
          CycleExit.disabledInstance)
      else if !s.settings.globalEnabled then
        Except.ok ({ s with activeTimers := alistDel s.activeTimers key },
          CycleExit.globallyDisabled)
      else
        match env.tab with
        | none =>
            Except.ok (stopActionOnTab s actionId tabId, CycleExit.tabGone)
        | some tab =>
          if optStrTruthy action.urlFilter
              && !matchesUrlFilter tab.url (action.urlFilter.getD "") then
            match scheduleActionOnTab s action tabId env with
            | Except.ok s' => Except.ok (s', CycleExit.urlFilterSkip)
            | Except.error _ => Except.error s
          else
            let attempts := (alistGet s.errorRecoveryAttempts key).getD 0
            match executeAction action tab env.inject with
            | Except.error emsg =>
              let attempts := attempts + 1
              if MAX_RECOVERY_ATTEMPTS ≤ attempts then
                let s := stopActionOnTab s actionId tabId
                let s := addLog s
                  { actionId := actionId, actionName := action.name, success := false
                    error := some ("Max recovery attempts reached: " ++ emsg)
                    tabId := some tabId, timestamp := env.now }
                Except.ok (s, CycleExit.aborted)
              else
                let s := { s with
                  errorRecoveryAttempts := alistSet s.errorRecoveryAttempts key attempts }
                match scheduleActionOnTab s action tabId env with
                | Except.ok s' => Except.ok (s', CycleExit.retryScheduled)
                | Except.error _ => Except.error s
            | Except.ok _ =>
              let newCount := inst.executionCount + 1
              let s := updateActionInstance s actionId tabId
                { executionCount := some newCount, lastExecuted := some env.now }
              if optNumTruthy action.repeatLimit
                  && decide (action.repeatLimit.getD 0 ≤ newCount) then
                let s := stopActionOnTab s actionId tabId
                Except.ok (notifyCompletion s action.name
                    (toString newCount ++ " executions on tab"),
                  CycleExit.repeatLimitStop)
              else
                let elapsedMinutes := (env.now - inst.startedAt) / 60000
                if optNumTruthy action.timeLimit && decide (inst.startedAt ≠ 0)
                    && decide (action.timeLimit.getD 0 ≤ elapsedMinutes) then
                  let s := stopActionOnTab s actionId tabId
                  Except.ok (notifyCompletion s action.name
                      (toString (round elapsedMinutes) ++ " minutes on tab"),
                    CycleExit.timeLimitStop)
                else
                  let s := if s.settings.notifications
                      && (decide (newCount = 1) || decide (jsMod newCount 50 = 0)) then
                    { s with notificationsShown :=
                        ("GhostInput", action.name ++ ": " ++ toString newCount ++ "x on "
                          ++ (let t := String.mk (tab.title.data.take 20)
                              if t = "" then "tab" else t))
                          :: s.notificationsShown }
                  else s
                  match scheduleActionOnTab s action tabId env with
                  | Except.ok s' => Except.ok (s', CycleExit.rescheduled)
                  | Except.error _ => Except.error s

/-- executeAndRescheduleOnTab: run the try-block; on an escaped exception the
outer catch bumps the recovery counter, attempts one best-effort reschedule
when under the limit, and otherwise (or when that also fails) drops the timer
entry and stops the pair. -/
def executeAndRescheduleOnTab (s : SysState) (actionId : String) (tabId : Nat)
    (env : CycleEnv) : SysState × CycleExit :=
  match executeAndRescheduleBody s actionId tabId env with
  | Except.ok r => r
  | Except.error s' =>
    let key := timerKey actionId tabId
    let attempts := (alistGet s'.errorRecoveryAttempts key).getD 0 + 1
    let s' := { s' with
      errorRecoveryAttempts := alistSet s'.errorRecoveryAttempts key attempts }
    if attempts < MAX_RECOVERY_ATTEMPTS then
      match findAction (getActions s') actionId with
      | some action =>
        match scheduleActionOnTab s' action tabId env with
        | Except.ok s'' => (s'', CycleExit.errorRescheduled)
        | Except.error _ =>
            (stopActionOnTab { s' with activeTimers := alistDel s'.activeTimers key }
              actionId tabId, CycleExit.errorCleanup)
      | none =>
          (stopActionOnTab { s' with activeTimers := alistDel s'.activeTimers key }
            actionId tabId, CycleExit.errorCleanup)
    else
      (stopActionOnTab { s' with activeTimers := alistDel s'.activeTimers key }
        actionId tabId, CycleExit.errorCleanup)

/-! ### Scheduling Orchestrator (initializeTimers, toggleGlobal, startActionOnTab) -/

/-- The body of the initializeTimers scheduling loop: arm a timer for every
enabled instance of every stored action, counting successes and tolerating
individual failures.  The iteration list is the getActions snapshot taken at
entry; tab-id keys are numeric by construction so the parseInt/isNaN guard of
the JS loop never discards one here. -/
def armAllEnabled (acc : SysState × Nat) (actions : List Action) (env : CycleEnv) :
    SysState × Nat :=
  actions.foldl (fun acc action =>
    action.instances.foldl (fun acc p =>
      if p.2.enabled then
        match scheduleActionOnTab acc.1 action p.1 env with
        | Except.ok s' => (s', acc.2 + 1)
        | Except.error _ => acc
      else acc) acc) acc

/-- initializeTimers: idempotent via the isInitialized flag; when global
scheduling is disabled it only zeroes the badge and returns (the
clearAllTimers call sits after this early return); otherwise it clears every
timer and re-arms one per enabled instance, updating the badge with the
success count. -/
def initTimers (s : SysState) (env : CycleEnv) : SysState :=
  if s.isInit then s
  else
    let s := { s with isInit := true }
    let actions := getActions s
    if !s.settings.globalEnabled then
      updateBadge s 0
    else
      let s := clearAllTimers s
      let r := armAllEnabled (s, 0) actions env
      updateBadge r.1 r.2

/-- toggleGlobal: flip the stored flag; enabling re-runs initializeTimers
with the one-shot flag reset, disabling clears every timer and zeroes the
badge. -/
def toggleGlobal (s : SysState) (env : CycleEnv) : SysState × Bool :=
  let newEnabled := !s.settings.globalEnabled
  let s := { s with settings := { s.settings with globalEnabled := newEnabled } }
  if newEnabled then
    (initTimers { s with isInit := false } env, newEnabled)
  else
    (updateBadge (clearAllTimers s) 0, newEnabled)

/-- startActionOnTab: look the action up, auto-re-enable global scheduling
(resetting the one-shot init flag), resolve a tab title, create or overwrite
the instance through addActionInstance, arm the timer, refresh the badge.
Validation and scheduling errors become error results (the catch block), and
a scheduling error still leaves the instance added. -/
def startActionOnTab (s : SysState) (actionId : String) (tabId : Nat)
    (tabTitle : Option String) (env : CycleEnv) : SysState × Except String Unit :=
  match findAction (getActions s) actionId with
  | none => (s, Except.error "Action not found")
  | some action =>
    let s := if !s.settings.globalEnabled then
        { s with settings := { s.settings with globalEnabled := true }, isInit := false }
      else s
    let title := match tabTitle with
      | some t => some t
      | none => match env.tab with
        | some tab => some (if tab.title = "" then "Tab " ++ toString tabId else tab.title)
        | none => some ("Tab " ++ toString tabId)
    match addActionInstance s actionId tabId title env.now with
    | Except.error e => (s, Except.error e)
    | Except.ok s' =>
      match scheduleActionOnTab s' action tabId env with
      | Except.error e => (s', Except.error e)
      | Except.ok s'' => (refreshBadge s'', Except.ok ())

/-! ### Abbreviations for the converted randomize bounds of calculateInterval -/

/-- The converted lower randomize bound used by the floor draw. -/
def randMinMs (a : Action) : ℚ := a.randomizeMin * unitMultiplier a.timeUnit

/-- The converted upper randomize bound used by the floor draw, after max is
coerced up to min. -/
def randMaxMs (a : Action) : ℚ :=
  (if a.randomizeMax < a.randomizeMin then a.randomizeMin else a.randomizeMax)
    * unitMultiplier a.timeUnit

/-- Whether calculateInterval takes the randomized branch: randomization on,
some randomize bound non-zero, and a positive converted maximum. -/
def randomBranch (a : Action) : Bool :=
  (a.randomize && (a.randomizeMin != 0 || a.randomizeMax != 0)) && decide (0 < randMaxMs a)

/-! ### Observation helpers (read-only projections used by the theorems) -/

/-- The stored execution count of the (actionId, tabId) instance, if any. -/
def instCount (s : SysState) (aid : String) (tid : Nat) : Option ℚ :=
  match findAction (getActions s) aid with
  | some a => (alistGet a.instances tid).map (fun i => i.executionCount)
  | none => none

/-- The stored instance record of the (actionId, tabId) pair, if any. -/
def instLookup (s : SysState) (aid : String) (tid : Nat) : Option ActionInstance :=
  match findAction (getActions s) aid with
  | some a => alistGet a.instances tid
  | none => none

/-- The keys with an armed timer. -/
def armedKeys (s : SysState) : List String :=
  s.activeTimers.map Prod.fst

/-- The timer keys of all enabled stored instances. -/
def enabledKeys (s : SysState) : List String :=
  ((getActions s).map (fun a =>
    (a.instances.filter (fun p => p.2.enabled)).map (fun p => timerKey a.id p.1))).flatten

/-- The enabled timer keys contributed by a fixed action-list snapshot (the
list armAllEnabled iterates over). -/
def eKeysOf (actions : List Action) : List String :=
  (actions.map (fun a =>
    (a.instances.filter (fun p => p.2.enabled)).map (fun p => timerKey a.id p.1))).flatten

/-! ### Concrete fixtures -/

/-- A randomized configuration whose converted randomize range lies above
the 24-hour cap: min = max = 25 hours. -/
def overflowAction : Action :=
  { id := "a1", name := "overflow", type := "key", interval := 1
    timeUnit := TimeUnit.hours, randomize := true
    randomizeMin := 25, randomizeMax := 25 }

/-- A fresh enabled instance bound to tab 42. -/
def inst42 : ActionInstance :=
  { enabled := true, executionCount := 0, startedAt := 1, tabTitle := "T" }

/-- A plain 5000 ms action with one enabled instance on tab 42. -/
def act5000 : Action :=
  { id := "a1", name := "act", type := "key", interval := 5000
    timeUnit := TimeUnit.milliseconds, randomize := false
    randomizeMin := 0, randomizeMax := 0
    instances := [(42, inst42)] }

/-- Default settings with scheduling on and progress notifications off. -/
def quietSettings : Settings :=
  { globalEnabled := true, notifications := false, maxLogs := 100 }

/-- A live ordinary https tab with id 42. -/
def tab42 : TabInfo :=
  { id := 42, url := "https://example.com", title := "T" }

/-- State in which the (a1, 42) pair has already failed twice in a row:
the stored recovery counter is MAX_RECOVERY_ATTEMPTS minus one. -/
def twoFailuresState : SysState :=
  { actions := [act5000], settings := quietSettings
    errorRecoveryAttempts := [(timerKey "a1" 42, 2)] }

/-- Environment whose script injection fails. -/
def failEnv : CycleEnv :=
  { now := 100000, random := 0, tab := some tab42
    inject := Except.error "boom" }

/-- Environment with a successful injection on tab 42. -/
def okEnv42 : CycleEnv :=
  { now := 100000, random := 0, tab := some tab42, inject := Except.ok () }

/-- A fresh enabled instance bound to tab 7. -/
def inst7zero : ActionInstance :=
  { enabled := true, executionCount := 0, startedAt := 1, tabTitle := "T" }

/-- A plain 5000 ms action with one enabled instance on tab 7 and no limits. -/
def actPlain7 : Action :=
  { id := "a3", name := "plain", type := "key", interval := 5000
    timeUnit := TimeUnit.milliseconds, randomize := false
    randomizeMin := 0, randomizeMax := 0
    instances := [(7, inst7zero)] }

/-- A live browser-internal settings tab: a restricted scheme. -/
def chromeTab : TabInfo :=
  { id := 7, url := "chrome://settings", title := "Settings" }

/-- State holding only actPlain7. -/
def restrictedState : SysState :=
  { actions := [actPlain7], settings := quietSettings }

/-- Environment resolving the restricted tab; its injection outcome would be
an error, but on a restricted page the injection is never attempted. -/
def restrictedEnv : CycleEnv :=
  { now := 100000, random := 0, tab := some chromeTab
    inject := Except.error "never reached" }

/-- A stale armed timer entry for (a1, 42). -/
def staleTimerInfo : TimerInfo :=
  { timerId := 1, nextExecution := 5000, intervalMs := 5000, actionId := "a1", tabId := 42 }

/-- A not-yet-initialized state with global scheduling disabled and one
armed timer left over. -/
def disabledState : SysState :=
  { actions := [act5000]
    settings := { globalEnabled := false, notifications := false, maxLogs := 100 }
    activeTimers := [(timerKey "a1" 42, staleTimerInfo)]
    liveTimers := [1], nextTimerId := 2 }

/-- A trivial environment for operations that ignore it. -/
def anyEnv : CycleEnv := { now := 0 }

/-- An initialized enabled state where (a1, 42) already holds an armed
timer. -/
def armedState : SysState :=
  { actions := [act5000], settings := quietSettings
    activeTimers := [(timerKey "a1" 42, staleTimerInfo)]
    liveTimers := [1], nextTimerId := 2, isInit := true }

/-- An instance that has already made progress toward its limits. -/
def wornInst : ActionInstance :=
  { enabled := true, executionCount := 7, startedAt := 5, tabTitle := "Old" }

/-- An action already holding the maximum of five instances, tab 3 among
them. -/
def act5insts : Action :=
  { id := "a5", name := "full", type := "key", interval := 5000
    timeUnit := TimeUnit.milliseconds, randomize := false
    randomizeMin := 0, randomizeMax := 0
    repeatLimit := some 10
    instances := [(1, wornInst), (2, wornInst), (3, wornInst), (4, wornInst), (5, wornInst)] }

/-- State holding only the five-instance action. -/
def fullState : SysState :=
  { actions := [act5insts], settings := quietSettings }

/-- An instance on tab 7 that has already executed twice. -/
def repeatInst : ActionInstance :=
  { enabled := true, executionCount := 2, startedAt := 1, tabTitle := "T" }

/-- An action with repeatLimit 3 and a short timeLimit, so that at the third
success both limits are exceeded at once. -/
def actRepeat : Action :=
  { id := "a2", name := "rep", type := "key", interval := 5000
    timeUnit := TimeUnit.milliseconds, randomize := false
    randomizeMin := 0, randomizeMax := 0
    repeatLimit := some 3, timeLimit := some 1
    instances := [(7, repeatInst)] }

/-- State holding only actRepeat. -/
def repeatState : SysState :=
  { actions := [actRepeat], settings := quietSettings }

/-- A live ordinary https tab with id 7. -/
def tab7 : TabInfo :=
  { id := 7, url := "https://example.com", title := "Tab7" }

/-- Environment with a successful injection, late enough that the time limit
is also exceeded. -/
def okEnv7 : CycleEnv :=
  { now := 100000000, random := 0, tab := some tab7, inject := Except.ok () }

/-- The fresh instance record that addActionInstance writes when start is
issued with an explicit title (the empty-title fallback included). -/
def startFreshInst (tabId : Nat) (title : String) (now : ℚ) : ActionInstance :=
  { enabled := true, executionCount := 0, startedAt := now
    tabTitle := if title = "" then "Tab " ++ toString tabId else title }

/-- The action record after addActionInstance overwrites the binding for
tabId with the fresh instance. -/
def startWithFresh (a : Action) (tabId : Nat) (title : String) (now : ℚ) : Action :=
  { a with instances := alistSet a.instances tabId (startFreshInst tabId title now) }

/-! ### Association-list lemmas -/

theorem alistGet_set_self [DecidableEq κ] (l : List (κ × α)) (k : κ) (v : α) :
    alistGet (alistSet l k v) k = some v := by
  induction l with
  | nil => simp [alistSet, alistGet]
  | cons p rest ih =>
    obtain ⟨k', v'⟩ := p
    by_cases h : k' = k
    · subst h
      simp [alistSet, alistGet]
    · simp [alistSet, alistGet, h, ih]

theorem alistGet_set_ne [DecidableEq κ] (l : List (κ × α)) (k' k : κ) (v : α)
    (h : k' ≠ k) : alistGet (alistSet l k' v) k = alistGet l k := by
  induction l with
  | nil => simp [alistSet, alistGet, h]
  | cons p rest ih =>
    obtain ⟨k₀, v₀⟩ := p
    by_cases h0 : k₀ = k'
    · subst h0
      simp [alistSet, alistGet, h]
    · simp [alistSet, alistGet, h0, ih]

theorem alistGet_del_self [DecidableEq κ] (l : List (κ × α)) (k : κ) :
    alistGet (alistDel l k) k = none := by
  induction l with
  | nil => simp [alistDel, alistGet]
  | cons p rest ih =>
    obtain ⟨k₀, v₀⟩ := p
    by_cases h0 : k₀ = k
    · simp [alistDel, h0, ih]
    · simp [alistDel, alistGet, h0, ih]

theorem alistGet_del_ne [DecidableEq κ] (l : List (κ × α)) (k' k : κ)
    (h : k' ≠ k) : alistGet (alistDel l k') k = alistGet l k := by
  induction l with
  | nil => simp [alistDel, alistGet]
  | cons p rest ih =>
    obtain ⟨k₀, v₀⟩ := p
    by_cases h0 : k₀ = k'
    · subst h0
      simp [alistDel, alistGet, h, ih, Ne.symm h]
    · simp [alistDel, alistGet, h0, ih]

theorem alistDel_idem [DecidableEq κ] (l : List (κ × α)) (k : κ) :
    alistDel (alistDel l k) k = alistDel l k := by
  induction l with
  | nil => simp [alistDel]
  | cons p rest ih =>
    obtain ⟨k₀, v₀⟩ := p
    by_cases h0 : k₀ = k
    · simp [alistDel, h0, ih]
    · simp [alistDel, h0, ih]

theorem length_alistSet_of_mem [DecidableEq κ] (l : List (κ × α)) (k : κ) (v w : α)
    (h : alistGet l k = some w) : (alistSet l k v).length = l.length := by
  induction l with
  | nil => simp [alistGet] at h
  | cons p rest ih =>
    obtain ⟨k₀, v₀⟩ := p
    by_cases h0 : k₀ = k
    · simp [alistSet, h0]
    · simp [alistGet, h0] at h
      simp [alistSet, h0, ih h]

theorem length_alistDel_le [DecidableEq κ] (l : List (κ × α)) (k : κ) :
    (alistDel l k).length ≤ l.length := by
  induction l with
  | nil => simp [alistDel]
  | cons p rest ih =>
    obtain ⟨k₀, v₀⟩ := p
    by_cases h0 : k₀ = k
    · simp only [alistDel, if_pos h0, List.length_cons]
      exact Nat.le_succ_of_le ih
    · simp only [alistDel, if_neg h0, List.length_cons]
      exact Nat.succ_le_succ ih

theorem mem_keys_alistSet [DecidableEq κ] (l : List (κ × α)) (k : κ) (v : α) (x : κ) :
    x ∈ (alistSet l k v).map Prod.fst ↔ (x = k ∨ x ∈ l.map Prod.fst) := by
  induction l with
  | nil => simp [alistSet, eq_comm]
  | cons p rest ih =>
    obtain ⟨k₀, v₀⟩ := p
    by_cases h0 : k₀ = k
    · subst h0
      simp [alistSet]
    · simp only [alistSet, if_neg h0, List.map_cons, List.mem_cons, ih]
      tauto

theorem keys_alistSet_nodup [DecidableEq κ] (l : List (κ × α)) (k : κ) (v : α)
    (h : (l.map Prod.fst).Nodup) : ((alistSet l k v).map Prod.fst).Nodup := by
  induction l with
  | nil => simp [alistSet]
  | cons p rest ih =>
    obtain ⟨k₀, v₀⟩ := p
    simp only [List.map_cons, List.nodup_cons] at h
    by_cases h0 : k₀ = k
    · subst h0
      have hset : alistSet ((k₀, v₀) :: rest) k₀ v = (k₀, v) :: rest := by
        simp [alistSet]
      rw [hset]
      simp only [List.map_cons, List.nodup_cons]
      exact h
    · simp only [alistSet, if_neg h0, List.map_cons, List.nodup_cons]
      constructor
      · intro hmem
        rcases (mem_keys_alistSet rest k v k₀).mp hmem with h1 | h1
        · exact h0 h1
        · exact h.1 h1
      · exact ih h.2

/-! ### Storage lemmas -/

theorem getActions_saveActions (s : SysState) (l : List Action) :
    getActions (saveActions s l) = l.filter validAction := rfl

theorem mem_getActions_valid (s : SysState) :
    ∀ a ∈ getActions s, validAction a = true :=
  fun _ ha => List.of_mem_filter ha

theorem mem_replaceFirstAction (l : List Action) (aid : String) (a' : Action) :
    ∀ x ∈ replaceFirstAction l aid a', x ∈ l ∨ x = a' := by
  induction l with
  | nil =>
    intro x hx
    simp [replaceFirstAction] at hx
  | cons a rest ih =>
    intro x hx
    by_cases h : a.id = aid
    · simp only [replaceFirstAction, if_pos h, List.mem_cons] at hx
      rcases hx with hx | hx
      · right; exact hx
      · left; exact List.mem_cons_of_mem _ hx
    · simp only [replaceFirstAction, if_neg h, List.mem_cons] at hx
      rcases hx with hx | hx
      · left
        exact hx ▸ List.mem_cons_self _ _
      · rcases ih x hx with h1 | h1
        · left; exact List.mem_cons_of_mem _ h1
        · right; exact h1

theorem replaceFirstAction_filter_valid (l : List Action) (aid : String) (a' : Action)
    (hl : ∀ x ∈ l, validAction x = true) (ha' : validAction a' = true) :
    (replaceFirstAction l aid a').filter validAction = replaceFirstAction l aid a' := by
  rw [List.filter_eq_self]
  intro x hx
  rcases mem_replaceFirstAction l aid a' x hx with h | h
  · exact hl x h
  · exact h ▸ ha'

theorem findAction_some_id (l : List Action) (aid : String) (a : Action)
    (h : findAction l aid = some a) : a.id = aid := by
  unfold findAction at h
  have := List.find?_some h
  simpa using this

theorem findAction_mem (l : List Action) (aid : String) (a : Action)
    (h : findAction l aid = some a) : a ∈ l :=
  List.mem_of_find?_eq_some h

theorem findAction_replaceFirst (l : List Action) (aid : String) (a a' : Action)
    (h : findAction l aid = some a) (hid : a'.id = aid) :
    findAction (replaceFirstAction l aid a') aid = some a' := by
  induction l with
  | nil => simp [findAction] at h
  | cons b rest ih =>
    by_cases hb : b.id = aid
    · simp only [replaceFirstAction, if_pos hb, findAction]
      rw [List.find?_cons_of_pos]
      simp [hid]
    · unfold findAction at h
      rw [List.find?_cons_of_neg] at h
      · simp only [replaceFirstAction, if_neg hb, findAction]
        rw [List.find?_cons_of_neg]
        · exact ih h
        · simp [hb]
      · simp [hb]

theorem validAction_set_instance (a : Action) (tid : Nat) (inst w : ActionInstance)
    (hmem : alistGet a.instances tid = some w) (hv : validAction a = true) :
    validAction { a with instances := alistSet a.instances tid inst } = true := by
  simp only [validAction] at hv ⊢
  rwa [length_alistSet_of_mem a.instances tid inst w hmem]

theorem validAction_del_instance (a : Action) (tid : Nat)
    (hv : validAction a = true) :
    validAction { a with instances := alistDel a.instances tid } = true := by
  simp only [validAction, Bool.and_eq_true, decide_eq_true_eq] at hv ⊢
  obtain ⟨h1, h2⟩ := hv
  exact ⟨h1, le_trans (length_alistDel_le _ _) h2⟩

/-! ### Projection lemmas for the storage operations -/

@[simp] theorem updateActionInstance_activeTimers (s : SysState) (aid : String) (tid : Nat)
    (u : InstanceUpdate) : (updateActionInstance s aid tid u).activeTimers = s.activeTimers := by
  unfold updateActionInstance
  cases h : findAction (getActions s) aid with
  | none => simp only [h]
  | some a =>
    cases h2 : alistGet a.instances tid with
    | none => simp only [h, h2]
    | some i => simp only [h, h2, saveActions]

@[simp] theorem updateActionInstance_errorRecoveryAttempts (s : SysState) (aid : String)
    (tid : Nat) (u : InstanceUpdate) :
    (updateActionInstance s aid tid u).errorRecoveryAttempts = s.errorRecoveryAttempts := by
  unfold updateActionInstance
  cases h : findAction (getActions s) aid with
  | none => simp only [h]
  | some a =>
    cases h2 : alistGet a.instances tid with
    | none => simp only [h, h2]
    | some i => simp only [h, h2, saveActions]

@[simp] theorem updateActionInstance_liveTimers (s : SysState) (aid : String) (tid : Nat)
    (u : InstanceUpdate) : (updateActionInstance s aid tid u).liveTimers = s.liveTimers := by
  unfold updateActionInstance
  cases h : findAction (getActions s) aid with
  | none => simp only [h]
  | some a =>
    cases h2 : alistGet a.instances tid with
    | none => simp only [h, h2]
    | some i => simp only [h, h2, saveActions]

@[simp] theorem updateActionInstance_settings (s : SysState) (aid : String) (tid : Nat)
    (u : InstanceUpdate) : (updateActionInstance s aid tid u).settings = s.settings := by
  unfold updateActionInstance
  cases h : findAction (getActions s) aid with
  | none => simp only [h]
  | some a =>
    cases h2 : alistGet a.instances tid with
    | none => simp only [h, h2]
    | some i => simp only [h, h2, saveActions]

@[simp] theorem updateActionInstance_logs (s : SysState) (aid : String) (tid : Nat)
    (u : InstanceUpdate) : (updateActionInstance s aid tid u).logs = s.logs := by
  unfold updateActionInstance
  cases h : findAction (getActions s) aid with
  | none => simp only [h]
  | some a =>
    cases h2 : alistGet a.instances tid with
    | none => simp only [h, h2]
    | some i => simp only [h, h2, saveActions]

@[simp] theorem updateActionInstance_notificationsShown (s : SysState) (aid : String)
    (tid : Nat) (u : InstanceUpdate) :
    (updateActionInstance s aid tid u).notificationsShown = s.notificationsShown := by
  unfold updateActionInstance
  cases h : findAction (getActions s) aid with
  | none => simp only [h]
  | some a =>
    cases h2 : alistGet a.instances tid with
    | none => simp only [h, h2]
    | some i => simp only [h, h2, saveActions]

@[simp] theorem updateActionInstance_nextTimerId (s : SysState) (aid : String) (tid : Nat)
    (u : InstanceUpdate) : (updateActionInstance s aid tid u).nextTimerId = s.nextTimerId := by
  unfold updateActionInstance
  cases h : findAction (getActions s) aid with
  | none => simp only [h]
  | some a =>
    cases h2 : alistGet a.instances tid with
    | none => simp only [h, h2]
    | some i => simp only [h, h2, saveActions]

@[simp] theorem removeActionInstance_activeTimers (s : SysState) (aid : String) (tid : Nat) :
    (removeActionInstance s aid tid).activeTimers = s.activeTimers := by
  unfold removeActionInstance
  cases h : findAction (getActions s) aid with
  | none => simp only [h]
  | some a => simp only [h, saveActions]

@[simp] theorem removeActionInstance_errorRecoveryAttempts (s : SysState) (aid : String)
    (tid : Nat) : (removeActionInstance s aid tid).errorRecoveryAttempts
      = s.errorRecoveryAttempts := by
  unfold removeActionInstance
  cases h : findAction (getActions s) aid with
  | none => simp only [h]
  | some a => simp only [h, saveActions]

@[simp] theorem removeActionInstance_liveTimers (s : SysState) (aid : String) (tid : Nat) :
    (removeActionInstance s aid tid).liveTimers = s.liveTimers := by
  unfold removeActionInstance
  cases h : findAction (getActions s) aid with
  | none => simp only [h]
  | some a => simp only [h, saveActions]

@[simp] theorem removeActionInstance_settings (s : SysState) (aid : String) (tid : Nat) :
    (removeActionInstance s aid tid).settings = s.settings := by
  unfold removeActionInstance
  cases h : findAction (getActions s) aid with
  | none => simp only [h]
  | some a => simp only [h, saveActions]

@[simp] theorem removeActionInstance_logs (s : SysState) (aid : String) (tid : Nat) :
    (removeActionInstance s aid tid).logs = s.logs := by
  unfold removeActionInstance
  cases h : findAction (getActions s) aid with
  | none => simp only [h]
  | some a => simp only [h, saveActions]

@[simp] theorem removeActionInstance_notificationsShown (s : SysState) (aid : String)
    (tid : Nat) : (removeActionInstance s aid tid).notificationsShown
      = s.notificationsShown := by
  unfold removeActionInstance
  cases h : findAction (getActions s) aid with
  | none => simp only [h]
  | some a => simp only [h, saveActions]

@[simp] theorem removeActionInstance_nextTimerId (s : SysState) (aid : String) (tid : Nat) :
    (removeActionInstance s aid tid).nextTimerId = s.nextTimerId := by
  unfold removeActionInstance
  cases h : findAction (getActions s) aid with
  | none => simp only [h]
  | some a => simp only [h, saveActions]

@[simp] theorem removeActionInstance_badge (s : SysState) (aid : String) (tid : Nat) :
    (removeActionInstance s aid tid).badge = s.badge := by
  unfold removeActionInstance
  cases h : findAction (getActions s) aid with
  | none => simp only [h]
  | some a => simp only [h, saveActions]

@[simp] theorem refreshBadge_actions (s : SysState) :
    (refreshBadge s).actions = s.actions := by
  unfold refreshBadge updateBadge
  split <;> rfl

@[simp] theorem refreshBadge_activeTimers (s : SysState) :
    (refreshBadge s).activeTimers = s.activeTimers := by
  unfold refreshBadge updateBadge
  split <;> rfl

@[simp] theorem refreshBadge_errorRecoveryAttempts (s : SysState) :
    (refreshBadge s).errorRecoveryAttempts = s.errorRecoveryAttempts := by
  unfold refreshBadge updateBadge
  split <;> rfl

@[simp] theorem refreshBadge_liveTimers (s : SysState) :
    (refreshBadge s).liveTimers = s.liveTimers := by
  unfold refreshBadge updateBadge
  split <;> rfl

@[simp] theorem refreshBadge_settings (s : SysState) :
    (refreshBadge s).settings = s.settings := by
  unfold refreshBadge updateBadge
  split <;> rfl

@[simp] theorem refreshBadge_logs (s : SysState) :
    (refreshBadge s).logs = s.logs := by
  unfold refreshBadge updateBadge
  split <;> rfl

@[simp] theorem refreshBadge_notificationsShown (s : SysState) :
    (refreshBadge s).notificationsShown = s.notificationsShown := by
  unfold refreshBadge updateBadge
  split <;> rfl

@[simp] theorem refreshBadge_nextTimerId (s : SysState) :
    (refreshBadge s).nextTimerId = s.nextTimerId := by
  unfold refreshBadge updateBadge
  split <;> rfl

@[simp] theorem cancelTimer_activeTimers (s : SysState) (tid : Nat) :
    (cancelTimer s tid).activeTimers = s.activeTimers := rfl

@[simp] theorem cancelTimer_actions (s : SysState) (tid : Nat) :
    (cancelTimer s tid).actions = s.actions := rfl

@[simp] theorem cancelTimer_errorRecoveryAttempts (s : SysState) (tid : Nat) :
    (cancelTimer s tid).errorRecoveryAttempts = s.errorRecoveryAttempts := rfl

@[simp] theorem cancelTimer_settings (s : SysState) (tid : Nat) :
    (cancelTimer s tid).settings = s.settings := rfl

@[simp] theorem cancelTimer_logs (s : SysState) (tid : Nat) :
    (cancelTimer s tid).logs = s.logs := rfl

@[simp] theorem cancelTimer_notificationsShown (s : SysState) (tid : Nat) :
    (cancelTimer s tid).notificationsShown = s.notificationsShown := rfl

@[simp] theorem addLog_activeTimers (s : SysState) (e : LogEntry) :
    (addLog s e).activeTimers = s.activeTimers := rfl

@[simp] theorem addLog_errorRecoveryAttempts (s : SysState) (e : LogEntry) :
    (addLog s e).errorRecoveryAttempts = s.errorRecoveryAttempts := rfl

@[simp] theorem addLog_actions (s : SysState) (e : LogEntry) :
    (addLog s e).actions = s.actions := rfl

@[simp] theorem addLog_liveTimers (s : SysState) (e : LogEntry) :
    (addLog s e).liveTimers = s.liveTimers := rfl

@[simp] theorem addLog_settings (s : SysState) (e : LogEntry) :
    (addLog s e).settings = s.settings := rfl

@[simp] theorem addLog_notificationsShown (s : SysState) (e : LogEntry) :
    (addLog s e).notificationsShown = s.notificationsShown := rfl

theorem addLog_logs_no_truncation (s : SysState) (e : LogEntry)
    (h : s.logs.length < s.settings.maxLogs) :
    (addLog s e).logs = e :: s.logs := by
  simp only [addLog]
  rw [if_neg (by simp only [List.length_cons]; omega)]

@[simp] theorem notifyCompletion_activeTimers (s : SysState) (n r : String) :
    (notifyCompletion s n r).activeTimers = s.activeTimers := rfl

@[simp] theorem notifyCompletion_errorRecoveryAttempts (s : SysState) (n r : String) :
    (notifyCompletion s n r).errorRecoveryAttempts = s.errorRecoveryAttempts := rfl

@[simp] theorem notifyCompletion_actions (s : SysState) (n r : String) :
    (notifyCompletion s n r).actions = s.actions := rfl

@[simp] theorem notifyCompletion_logs (s : SysState) (n r : String) :
    (notifyCompletion s n r).logs = s.logs := rfl

@[simp] theorem notifyCompletion_liveTimers (s : SysState) (n r : String) :
    (notifyCompletion s n r).liveTimers = s.liveTimers := rfl

@[simp] theorem notifyCompletion_settings (s : SysState) (n r : String) :
    (notifyCompletion s n r).settings = s.settings := rfl

@[simp] theorem notifyCompletion_notificationsShown (s : SysState) (n r : String) :
    (notifyCompletion s n r).notificationsShown
      = ("Task Completed", "Action \"" ++ n ++ "\" finished after " ++ r)
          :: s.notificationsShown := rfl

@[simp] theorem stopActionOnTab_logs (s : SysState) (aid : String) (tid : Nat) :
    (stopActionOnTab s aid tid).logs = s.logs := by
  unfold stopActionOnTab
  cases h : alistGet s.activeTimers (timerKey aid tid) with
  | none => simp [h]
  | some ti => simp [h]

@[simp] theorem stopActionOnTab_settings (s : SysState) (aid : String) (tid : Nat) :
    (stopActionOnTab s aid tid).settings = s.settings := by
  unfold stopActionOnTab
  cases h : alistGet s.activeTimers (timerKey aid tid) with
  | none => simp [h]
  | some ti => simp [h]

@[simp] theorem stopActionOnTab_notificationsShown (s : SysState) (aid : String) (tid : Nat) :
    (stopActionOnTab s aid tid).notificationsShown = s.notificationsShown := by
  unfold stopActionOnTab
  cases h : alistGet s.activeTimers (timerKey aid tid) with
  | none => simp [h]
  | some ti => simp [h]

@[simp] theorem stopActionOnTab_activeTimers (s : SysState) (aid : String) (tid : Nat) :
    (stopActionOnTab s aid tid).activeTimers
      = alistDel s.activeTimers (timerKey aid tid) := by
  unfold stopActionOnTab
  cases h : alistGet s.activeTimers (timerKey aid tid) with
  | none => simp [h]
  | some ti => simp [h]

@[simp] theorem stopActionOnTab_errorRecoveryAttempts (s : SysState) (aid : String)
    (tid : Nat) : (stopActionOnTab s aid tid).errorRecoveryAttempts
      = alistDel s.errorRecoveryAttempts (timerKey aid tid) := by
  unfold stopActionOnTab
  cases h : alistGet s.activeTimers (timerKey aid tid) with
  | none => simp [h]
  | some ti => simp [h]

/-! ### Reduction lemmas for the storage operations under lookup hypotheses -/

theorem updateActionInstance_eq (s : SysState) (aid : String) (tid : Nat)
    (u : InstanceUpdate) (a : Action) (inst : ActionInstance)
    (hfind : findAction (getActions s) aid = some a)
    (hinst : alistGet a.instances tid = some inst) :
    updateActionInstance s aid tid u =
      saveActions s (replaceFirstAction (getActions s) aid
        { a with instances := alistSet a.instances tid (applyInstanceUpdate inst u) }) := by
  unfold updateActionInstance
  simp only [hfind, hinst]

theorem removeActionInstance_eq (s : SysState) (aid : String) (tid : Nat) (a : Action)
    (hfind : findAction (getActions s) aid = some a) :
    removeActionInstance s aid tid =
      saveActions s (replaceFirstAction (getActions s) aid
        { a with instances := alistDel a.instances tid }) := by
  unfold removeActionInstance
  simp only [hfind]

theorem removeActionInstance_not_found (s : SysState) (aid : String) (tid : Nat)
    (hfind : findAction (getActions s) aid = none) :
    removeActionInstance s aid tid = s := by
  unfold removeActionInstance
  simp only [hfind]

theorem getActions_updateActionInstance (s : SysState) (aid : String) (tid : Nat)
    (u : InstanceUpdate) (a : Action) (inst : ActionInstance)
    (hfind : findAction (getActions s) aid = some a)
    (hinst : alistGet a.instances tid = some inst) :
    getActions (updateActionInstance s aid tid u)
      = replaceFirstAction (getActions s) aid
          { a with instances := alistSet a.instances tid (applyInstanceUpdate inst u) } := by
  rw [updateActionInstance_eq s aid tid u a inst hfind hinst, getActions_saveActions]
  exact replaceFirstAction_filter_valid _ _ _ (mem_getActions_valid s)
    (validAction_set_instance a tid _ inst hinst
      (mem_getActions_valid s a (findAction_mem _ _ _ hfind)))

theorem getActions_removeActionInstance (s : SysState) (aid : String) (tid : Nat)
    (a : Action) (hfind : findAction (getActions s) aid = some a) :
    getActions (removeActionInstance s aid tid)
      = replaceFirstAction (getActions s) aid
          { a with instances := alistDel a.instances tid } := by
  rw [removeActionInstance_eq s aid tid a hfind, getActions_saveActions]
  exact replaceFirstAction_filter_valid _ _ _ (mem_getActions_valid s)
    (validAction_del_instance a tid
      (mem_getActions_valid s a (findAction_mem _ _ _ hfind)))

theorem replaceFirst_replaceFirst (l : List Action) (aid : String) (a' a'' : Action)
    (hid : a'.id = aid) :
    replaceFirstAction (replaceFirstAction l aid a') aid a''
      = replaceFirstAction l aid a'' := by
  induction l with
  | nil => simp [replaceFirstAction]
  | cons b rest ih =>
    by_cases hb : b.id = aid
    · simp only [replaceFirstAction, if_pos hb, if_pos hid]
    · simp only [replaceFirstAction, if_neg hb, ih]

/-! ### Reduction lemmas for scheduleActionOnTab and stopActionOnTab -/

theorem scheduleActionOnTab_err (s : SysState) (a : Action) (tabId : Nat) (env : CycleEnv)
    (h : calculateInterval a env.random < MIN_INTERVAL_MS
        ∨ MAX_INTERVAL_MS < calculateInterval a env.random) :
    scheduleActionOnTab s a tabId env = Except.error "Invalid interval" := by
  simp only [scheduleActionOnTab]
  rw [if_pos]
  rcases h with h | h <;> simp [h]

theorem scheduleActionOnTab_ok (s : SysState) (a : Action) (tabId : Nat) (env : CycleEnv)
    (h1 : MIN_INTERVAL_MS ≤ calculateInterval a env.random)
    (h2 : calculateInterval a env.random ≤ MAX_INTERVAL_MS) :
    scheduleActionOnTab s a tabId env =
      Except.ok (updateActionInstance
        { s with
          liveTimers := s.nextTimerId ::
            (match alistGet s.activeTimers (timerKey a.id tabId) with
             | some old => s.liveTimers.erase old.timerId
             | none => s.liveTimers)
          nextTimerId := s.nextTimerId + 1
          activeTimers := alistSet s.activeTimers (timerKey a.id tabId)
            { timerId := s.nextTimerId
              nextExecution := env.now + calculateInterval a env.random
              intervalMs := calculateInterval a env.random
              actionId := a.id, tabId := tabId } }
        a.id tabId { nextExecution := some (env.now + calculateInterval a env.random) }) := by
  simp only [scheduleActionOnTab]
  rw [if_neg (by simp [not_lt.mpr h1, not_lt.mpr h2])]
  cases h : alistGet s.activeTimers (timerKey a.id tabId) with
  | none => simp only [h, cancelTimer]
  | some old => simp only [h, cancelTimer]

theorem stopActionOnTab_eq (s : SysState) (aid : String) (tid : Nat) (a : Action)
    (hfind : findAction (getActions s) aid = some a) :
    stopActionOnTab s aid tid =
      { actions := replaceFirstAction (getActions s) aid
          { a with instances := alistDel a.instances tid }
        settings := s.settings
        logs := s.logs
        activeTimers := alistDel s.activeTimers (timerKey aid tid)
        errorRecoveryAttempts := alistDel s.errorRecoveryAttempts (timerKey aid tid)
        liveTimers :=
          (match alistGet s.activeTimers (timerKey aid tid) with
           | some ti => s.liveTimers.erase ti.timerId
           | none => s.liveTimers)
        nextTimerId := s.nextTimerId
        notificationsShown := s.notificationsShown
        badge := if s.settings.globalEnabled then
            countEnabledInstances (List.filter validAction
              (replaceFirstAction (getActions s) aid
                { a with instances := alistDel a.instances tid }))
          else 0
        isInit := s.isInit } := by
  unfold stopActionOnTab
  cases h : alistGet s.activeTimers (timerKey aid tid) with
  | none =>
    simp only [h, cancelTimer]
    rw [removeActionInstance_eq _ aid tid a (by exact hfind)]
    simp only [saveActions, refreshBadge, updateBadge, getActions]
    split <;> rfl
  | some ti =>
    simp only [h, cancelTimer]
    rw [removeActionInstance_eq _ aid tid a (by exact hfind)]
    simp only [saveActions, refreshBadge, updateBadge, getActions]
    split <;> rfl

theorem stopActionOnTab_not_found (s : SysState) (aid : String) (tid : Nat)
    (hfind : findAction (getActions s) aid = none) :
    stopActionOnTab s aid tid =
      { actions := s.actions
        settings := s.settings
        logs := s.logs
        activeTimers := alistDel s.activeTimers (timerKey aid tid)
        errorRecoveryAttempts := alistDel s.errorRecoveryAttempts (timerKey aid tid)
        liveTimers :=
          (match alistGet s.activeTimers (timerKey aid tid) with
           | some ti => s.liveTimers.erase ti.timerId
           | none => s.liveTimers)
        nextTimerId := s.nextTimerId
        notificationsShown := s.notificationsShown
        badge := if s.settings.globalEnabled then
            countEnabledInstances (getActions s)
          else 0
        isInit := s.isInit } := by
  unfold stopActionOnTab
  cases h : alistGet s.activeTimers (timerKey aid tid) with
  | none =>
    simp only [h, cancelTimer]
    rw [removeActionInstance_not_found _ aid tid (by exact hfind)]
    simp only [refreshBadge, updateBadge, getActions]
    split <;> rfl
  | some ti =>
    simp only [h, cancelTimer]
    rw [removeActionInstance_not_found _ aid tid (by exact hfind)]
    simp only [refreshBadge, updateBadge, getActions]
    split <;> rfl

/-- Branch characterization of calculateInterval in terms of the converted
randomize bounds. -/
theorem calculateInterval_eq (a : Action) (r : ℚ) :
    calculateInterval a r =
      if a.randomize && (a.randomizeMin != 0 || a.randomizeMax != 0) then
        (if 0 < randMaxMs a then
          ((⌊r * (randMaxMs a - randMinMs a + 1) + randMinMs a⌋ : ℤ) : ℚ)
        else max MIN_INTERVAL_MS (min MAX_INTERVAL_MS (a.interval * unitMultiplier a.timeUnit)))
      else max MIN_INTERVAL_MS (min MAX_INTERVAL_MS (a.interval * unitMultiplier a.timeUnit)) := by
  unfold calculateInterval randMaxMs randMinMs
  rfl

/-- The converted randomize bounds always satisfy min at most max, because
max is coerced up to min before conversion and the unit multiplier is
positive. -/
theorem randMinMs_le_randMaxMs (a : Action) : randMinMs a ≤ randMaxMs a := by
  have hmult : (0 : ℚ) < unitMultiplier a.timeUnit := by
    cases a.timeUnit <;> norm_num [unitMultiplier]
  unfold randMinMs randMaxMs
  split
  · exact le_refl _
  · next h => exact mul_le_mul_of_nonneg_right (le_of_not_lt h) (le_of_lt hmult)

/-! ### C9 -/

/-- C9: stopActionOnTab is idempotent.  A second stop for the same
(actionId, tabId) is a complete no-op: it raises no error (the operation is
total), appends no log entry and leaves the timer registry, live timers,
recovery counters, stored instances, badge and every other state component
exactly as the first stop left them. -/
theorem stopActionOnTab_idem (s : SysState) (aid : String) (tid : Nat) :
    stopActionOnTab (stopActionOnTab s aid tid) aid tid = stopActionOnTab s aid tid := by
  cases hfind : findAction (getActions s) aid with
  | none =>
    have h1 := stopActionOnTab_not_found s aid tid hfind
    have hfind1 : findAction (getActions (stopActionOnTab s aid tid)) aid = none := by
      rw [h1]
      exact hfind
    rw [stopActionOnTab_not_found _ aid tid hfind1, h1]
    simp only [alistDel_idem, alistGet_del_self, getActions]
  | some a =>
    have hvalid_a : validAction a = true :=
      mem_getActions_valid s a (findAction_mem _ _ _ hfind)
    have ha_id : a.id = aid := findAction_some_id _ _ _ hfind
    have h1 := stopActionOnTab_eq s aid tid a hfind
    have hvl' : ∀ x ∈ replaceFirstAction (getActions s) aid
        { a with instances := alistDel a.instances tid }, validAction x = true := by
      intro x hx
      rcases mem_replaceFirstAction _ _ _ x hx with hm | hm
      · exact mem_getActions_valid s x hm
      · rw [hm]
        exact validAction_del_instance a tid hvalid_a
    have hfilter := List.filter_eq_self.mpr hvl'
    have hget1 : getActions (stopActionOnTab s aid tid)
        = replaceFirstAction (getActions s) aid
            { a with instances := alistDel a.instances tid } := by
      rw [h1]
      exact hfilter
    have hfind1 : findAction (getActions (stopActionOnTab s aid tid)) aid
        = some { a with instances := alistDel a.instances tid } := by
      rw [hget1]
      exact findAction_replaceFirst _ _ a _ hfind ha_id
    have hrr := replaceFirst_replaceFirst (getActions s) aid
      ({ a with instances := alistDel a.instances tid })
      ({ a with instances := alistDel a.instances tid }) ha_id
    rw [stopActionOnTab_eq _ aid tid _ hfind1, hget1, h1]
    simp only [alistDel_idem, alistGet_del_self, hrr]

/-! ### Branch lemmas for the execution-and-reschedule cycle -/

theorem executeAndReschedule_of_body_ok (s : SysState) (aid : String) (tid : Nat)
    (env : CycleEnv) (r : SysState × CycleExit)
    (h : executeAndRescheduleBody s aid tid env = Except.ok r) :
    executeAndRescheduleOnTab s aid tid env = r := by
  unfold executeAndRescheduleOnTab
  rw [h]

/-- On the dispatch-failure path with the incremented counter reaching
MAX_RECOVERY_ATTEMPTS, the cycle stops the pair and appends the terminal log
entry carrying the last error message. -/
theorem cycle_failure_abort (s : SysState) (actionId : String) (tabId : Nat) (env : CycleEnv)
    (a : Action) (inst : ActionInstance) (tab : TabInfo) (emsg : String) (n : Nat)
    (hfind : findAction (getActions s) actionId = some a)
    (hinst : alistGet a.instances tabId = some inst)
    (hen : inst.enabled = true)
    (hglob : s.settings.globalEnabled = true)
    (htab : env.tab = some tab)
    (hfilter : (optStrTruthy a.urlFilter
        && !matchesUrlFilter tab.url (a.urlFilter.getD "")) = false)
    (hexec : executeAction a tab env.inject = Except.error emsg)
    (hrec : (alistGet s.errorRecoveryAttempts (timerKey actionId tabId)).getD 0 = n)
    (hge : MAX_RECOVERY_ATTEMPTS ≤ n + 1) :
    executeAndRescheduleOnTab s actionId tabId env =
      (addLog (stopActionOnTab s actionId tabId)
        { actionId := actionId, actionName := a.name, success := false
          error := some ("Max recovery attempts reached: " ++ emsg)
          tabId := some tabId, timestamp := env.now },
       CycleExit.aborted) := by
  apply executeAndReschedule_of_body_ok
  unfold executeAndRescheduleBody
  simp only [hfind, hinst, hen, hglob, htab, hfilter, hexec, hrec, Bool.not_true,
    Bool.false_eq_true, if_false, if_pos hge]

/-- On a dispatch failure with the incremented counter still under
MAX_RECOVERY_ATTEMPTS, the cycle stores the incremented counter and re-arms
at the normal freshly computed interval. -/
theorem cycle_failure_retry (s : SysState) (actionId : String) (tabId : Nat) (env : CycleEnv)
    (a : Action) (inst : ActionInstance) (tab : TabInfo) (emsg : String) (n : Nat)
    (s' : SysState)
    (hfind : findAction (getActions s) actionId = some a)
    (hinst : alistGet a.instances tabId = some inst)
    (hen : inst.enabled = true)
    (hglob : s.settings.globalEnabled = true)
    (htab : env.tab = some tab)
    (hfilter : (optStrTruthy a.urlFilter
        && !matchesUrlFilter tab.url (a.urlFilter.getD "")) = false)
    (hexec : executeAction a tab env.inject = Except.error emsg)
    (hrec : (alistGet s.errorRecoveryAttempts (timerKey actionId tabId)).getD 0 = n)
    (hlt : n + 1 < MAX_RECOVERY_ATTEMPTS)
    (hsched : scheduleActionOnTab
        { s with errorRecoveryAttempts :=
            alistSet s.errorRecoveryAttempts (timerKey actionId tabId) (n + 1) }
        a tabId env = Except.ok s') :
    executeAndRescheduleOnTab s actionId tabId env = (s', CycleExit.retryScheduled) := by
  apply executeAndReschedule_of_body_ok
  unfold executeAndRescheduleBody
  simp only [hfind, hinst, hen, hglob, htab, hfilter, hexec, hrec, Bool.not_true,
    Bool.false_eq_true, if_false, if_neg (not_le.mpr hlt), hsched]

/-- On a dispatch success whose incremented count reaches a truthy
repeatLimit, the cycle records the new count, stops the pair and emits one
completion notification; the timeLimit check is never reached. -/
theorem cycle_success_repeat_stop (s : SysState) (actionId : String) (tabId : Nat)
    (env : CycleEnv) (a : Action) (inst : ActionInstance) (tab : TabInfo)
    (hfind : findAction (getActions s) actionId = some a)
    (hinst : alistGet a.instances tabId = some inst)
    (hen : inst.enabled = true)
    (hglob : s.settings.globalEnabled = true)
    (htab : env.tab = some tab)
    (hfilter : (optStrTruthy a.urlFilter
        && !matchesUrlFilter tab.url (a.urlFilter.getD "")) = false)
    (hexec : executeAction a tab env.inject = Except.ok ())
    (hrl : (optNumTruthy a.repeatLimit
        && decide (a.repeatLimit.getD 0 ≤ inst.executionCount + 1)) = true) :
    executeAndRescheduleOnTab s actionId tabId env =
      (notifyCompletion
        (stopActionOnTab
          (updateActionInstance s actionId tabId
            { executionCount := some (inst.executionCount + 1)
              lastExecuted := some env.now })
          actionId tabId)
        a.name (toString (inst.executionCount + 1) ++ " executions on tab"),
       CycleExit.repeatLimitStop) := by
  apply executeAndReschedule_of_body_ok
  unfold executeAndRescheduleBody
  simp only [hfind, hinst, hen, hglob, htab, hfilter, hexec, hrl, Bool.not_true,
    Bool.false_eq_true, if_false, if_true]

/-- On a dispatch success where neither limit triggers and no progress
notification is due, the cycle records the new count and re-arms a fresh
timer; the stored recovery counter is not touched on this path. -/
theorem cycle_success_reschedule (s : SysState) (actionId : String) (tabId : Nat)
    (env : CycleEnv) (a : Action) (inst : ActionInstance) (tab : TabInfo) (s' : SysState)
    (hfind : findAction (getActions s) actionId = some a)
    (hinst : alistGet a.instances tabId = some inst)
    (hen : inst.enabled = true)
    (hglob : s.settings.globalEnabled = true)
    (htab : env.tab = some tab)
    (hfilter : (optStrTruthy a.urlFilter
        && !matchesUrlFilter tab.url (a.urlFilter.getD "")) = false)
    (hexec : executeAction a tab env.inject = Except.ok ())
    (hrl : (optNumTruthy a.repeatLimit
        && decide (a.repeatLimit.getD 0 ≤ inst.executionCount + 1)) = false)
    (htl : (optNumTruthy a.timeLimit && decide (inst.startedAt ≠ 0)
        && decide (a.timeLimit.getD 0 ≤ (env.now - inst.startedAt) / 60000)) = false)
    (hnot : (s.settings.notifications && (decide (inst.executionCount + 1 = 1)
        || decide (jsMod (inst.executionCount + 1) 50 = 0))) = false)
    (hsched : scheduleActionOnTab
        (updateActionInstance s actionId tabId
          { executionCount := some (inst.executionCount + 1)
            lastExecuted := some env.now })
        a tabId env = Except.ok s') :
    executeAndRescheduleOnTab s actionId tabId env = (s', CycleExit.rescheduled) := by
  apply executeAndReschedule_of_body_ok
  unfold executeAndRescheduleBody
  simp only [hfind, hinst, hen, hglob, htab, hfilter, hexec, hrl, htl,
    updateActionInstance_settings, hnot, Bool.not_true,
    Bool.false_eq_true, if_false, hsched]

/-- Early exit: the action no longer exists — drop the timer entry and
refresh the badge. -/
theorem cycle_no_action (s : SysState) (actionId : String) (tabId : Nat) (env : CycleEnv)
    (hfind : findAction (getActions s) actionId = none) :
    executeAndRescheduleOnTab s actionId tabId env =
      (refreshBadge
        { s with activeTimers := alistDel s.activeTimers (timerKey actionId tabId) },
       CycleExit.noInstance) := by
  apply executeAndReschedule_of_body_ok
  unfold executeAndRescheduleBody
  simp only [hfind]

/-- Early exit: the instance for this tab no longer exists — drop the timer
entry and refresh the badge. -/
theorem cycle_no_instance (s : SysState) (actionId : String) (tabId : Nat) (env : CycleEnv)
    (a : Action)
    (hfind : findAction (getActions s) actionId = some a)
    (hinst : alistGet a.instances tabId = none) :
    executeAndRescheduleOnTab s actionId tabId env =
      (refreshBadge
        { s with activeTimers := alistDel s.activeTimers (timerKey actionId tabId) },
       CycleExit.noInstance) := by
  apply executeAndReschedule_of_body_ok
  unfold executeAndRescheduleBody
  simp only [hfind, hinst]

/-- Early exit: the instance is disabled — drop the timer entry and refresh
the badge. -/
theorem cycle_disabled_instance (s : SysState) (actionId : String) (tabId : Nat)
    (env : CycleEnv) (a : Action) (inst : ActionInstance)
    (hfind : findAction (getActions s) actionId = some a)
    (hinst : alistGet a.instances tabId = some inst)
    (hen : inst.enabled = false) :
    executeAndRescheduleOnTab s actionId tabId env =
      (refreshBadge
        { s with activeTimers := alistDel s.activeTimers (timerKey actionId tabId) },
       CycleExit.disabledInstance) := by
  apply executeAndReschedule_of_body_ok
  unfold executeAndRescheduleBody
  simp only [hfind, hinst, hen, Bool.not_false, if_true]

/-- Early exit: global scheduling is disabled — drop the timer entry without
refreshing the badge. -/
theorem cycle_global_off (s : SysState) (actionId : String) (tabId : Nat)
    (env : CycleEnv) (a : Action) (inst : ActionInstance)
    (hfind : findAction (getActions s) actionId = some a)
    (hinst : alistGet a.instances tabId = some inst)
    (hen : inst.enabled = true)
    (hglob : s.settings.globalEnabled = false) :
    executeAndRescheduleOnTab s actionId tabId env =
      ({ s with activeTimers := alistDel s.activeTimers (timerKey actionId tabId) },
       CycleExit.globallyDisabled) := by
  apply executeAndReschedule_of_body_ok
  unfold executeAndRescheduleBody
  simp only [hfind, hinst, hen, hglob, Bool.not_true, Bool.not_false,
    Bool.false_eq_true, if_false, if_true]

/-- Early exit: the tab no longer exists — stop the pair (removing instance,
timer and recovery counter). -/
theorem cycle_tab_gone (s : SysState) (actionId : String) (tabId : Nat)
    (env : CycleEnv) (a : Action) (inst : ActionInstance)
    (hfind : findAction (getActions s) actionId = some a)
    (hinst : alistGet a.instances tabId = some inst)
    (hen : inst.enabled = true)
    (hglob : s.settings.globalEnabled = true)
    (htab : env.tab = none) :
    executeAndRescheduleOnTab s actionId tabId env =
      (stopActionOnTab s actionId tabId, CycleExit.tabGone) := by
  apply executeAndReschedule_of_body_ok
  unfold executeAndRescheduleBody
  simp only [hfind, hinst, hen, hglob, htab, Bool.not_true, Bool.false_eq_true, if_false]

/-! ### Dispatcher facts -/

/-- executeAction on a live tab with a restricted-scheme URL skips the
injection entirely and returns success. -/
theorem executeAction_restricted (a : Action) (tab : TabInfo) (inj : Except String Unit)
    (hid : tab.id ≠ 0) (hr : isRestrictedUrl tab.url = true) :
    executeAction a tab inj = Except.ok () := by
  unfold executeAction
  rw [if_neg hid, if_pos hr]

/-- executeAction on a live unrestricted tab propagates a successful
injection. -/
theorem executeAction_ok (a : Action) (tab : TabInfo)
    (hid : tab.id ≠ 0) (hr : isRestrictedUrl tab.url = false) :
    executeAction a tab (Except.ok ()) = Except.ok () := by
  unfold executeAction
  rw [if_neg hid, hr]
  simp

/-- executeAction on a live unrestricted tab wraps an injection failure in an
ExecutionError message. -/
theorem executeAction_err (a : Action) (tab : TabInfo) (m : String)
    (hid : tab.id ≠ 0) (hr : isRestrictedUrl tab.url = false) :
    executeAction a tab (Except.error m)
      = Except.error ("Script injection failed: " ++ m) := by
  unfold executeAction
  rw [if_neg hid, hr]
  simp

theorem getActions_eq_of_actions_eq {t u : SysState} (h : t.actions = u.actions) :
    getActions t = getActions u := by
  unfold getActions
  rw [h]

theorem getActions_stopActionOnTab (s : SysState) (aid : String) (tid : Nat) (a : Action)
    (hfind : findAction (getActions s) aid = some a) :
    getActions (stopActionOnTab s aid tid)
      = replaceFirstAction (getActions s) aid
          { a with instances := alistDel a.instances tid } := by
  rw [stopActionOnTab_eq s aid tid a hfind]
  show List.filter validAction (replaceFirstAction (getActions s) aid
      { a with instances := alistDel a.instances tid }) = _
  apply List.filter_eq_self.mpr
  intro x hx
  rcases mem_replaceFirstAction _ _ _ x hx with hm | hm
  · exact mem_getActions_valid s x hm
  · rw [hm]
    exact validAction_del_instance a tid
      (mem_getActions_valid s a (findAction_mem _ _ _ hfind))

theorem instLookup_eq_of_actions_eq {t u : SysState} (h : t.actions = u.actions)
    (aid : String) (tid : Nat) : instLookup t aid tid = instLookup u aid tid := by
  unfold instLookup
  rw [getActions_eq_of_actions_eq h]

theorem instCount_eq_of_actions_eq {t u : SysState} (h : t.actions = u.actions)
    (aid : String) (tid : Nat) : instCount t aid tid = instCount u aid tid := by
  unfold instCount
  rw [getActions_eq_of_actions_eq h]

theorem updateActionInstance_actions_eq {t u : SysState} (h : t.actions = u.actions)
    (aid : String) (tid : Nat) (upd : InstanceUpdate) :
    (updateActionInstance t aid tid upd).actions
      = (updateActionInstance u aid tid upd).actions := by
  unfold updateActionInstance
  rw [getActions_eq_of_actions_eq h]
  cases hf : findAction (getActions u) aid with
  | none =>
    simp only [hf]
    exact h
  | some b =>
    cases hi : alistGet b.instances tid with
    | none =>
      simp only [hf, hi]
      exact h
    | some i => simp only [hf, hi, saveActions]

theorem instCount_updateActionInstance (t : SysState) (aid : String) (tid : Nat)
    (u : InstanceUpdate) (b : Action) (i : ActionInstance)
    (hfind : findAction (getActions t) aid = some b)
    (hinst : alistGet b.instances tid = some i) :
    instCount (updateActionInstance t aid tid u) aid tid
      = some ((applyInstanceUpdate i u).executionCount) := by
  unfold instCount
  rw [getActions_updateActionInstance t aid tid u b i hfind hinst,
    findAction_replaceFirst (getActions t) aid b
      ({ b with instances := alistSet b.instances tid (applyInstanceUpdate i u) }) hfind
      (findAction_some_id (getActions t) aid b hfind)]
  show Option.map (fun i => i.executionCount)
      (alistGet (alistSet b.instances tid (applyInstanceUpdate i u)) tid)
    = some (applyInstanceUpdate i u).executionCount
  rw [alistGet_set_self]
  rfl

theorem instLookup_stop_none (t : SysState) (aid : String) (tid : Nat) (b : Action)
    (hfind : findAction (getActions t) aid = some b) :
    instLookup (stopActionOnTab t aid tid) aid tid = none := by
  unfold instLookup
  rw [getActions_stopActionOnTab t aid tid b hfind,
    findAction_replaceFirst (getActions t) aid b
      ({ b with instances := alistDel b.instances tid }) hfind
      (findAction_some_id (getActions t) aid b hfind)]
  simp only [alistGet_del_self]

/-! ### C5 -/

/-- C5: on the third consecutive dispatch failure of an (actionId, tabId)
pair (stored counter already at MAX_RECOVERY_ATTEMPTS - 1), the cycle aborts
the pair: the cycle exits on the abort branch, the timer entry is gone, the
recovery counter is discarded, the stored instance is removed, and exactly
one terminal log entry carrying the last error message is prepended. -/
theorem third_consecutive_failure_aborts (s : SysState) (actionId : String) (tabId : Nat)
    (env : CycleEnv) (a : Action) (inst : ActionInstance) (tab : TabInfo) (emsg : String)
    (hfind : findAction (getActions s) actionId = some a)
    (hinst : alistGet a.instances tabId = some inst)
    (hen : inst.enabled = true)
    (hglob : s.settings.globalEnabled = true)
    (htab : env.tab = some tab)
    (hfilter : (optStrTruthy a.urlFilter
        && !matchesUrlFilter tab.url (a.urlFilter.getD "")) = false)
    (hexec : executeAction a tab env.inject = Except.error emsg)
    (hrec : alistGet s.errorRecoveryAttempts (timerKey actionId tabId)
        = some (MAX_RECOVERY_ATTEMPTS - 1))
    (hlogs : s.logs.length < s.settings.maxLogs) :
    (executeAndRescheduleOnTab s actionId tabId env).2 = CycleExit.aborted ∧
    alistGet (executeAndRescheduleOnTab s actionId tabId env).1.activeTimers
      (timerKey actionId tabId) = none ∧
    alistGet (executeAndRescheduleOnTab s actionId tabId env).1.errorRecoveryAttempts
      (timerKey actionId tabId) = none ∧
    instLookup (executeAndRescheduleOnTab s actionId tabId env).1 actionId tabId = none ∧
    (executeAndRescheduleOnTab s actionId tabId env).1.logs
      = { actionId := actionId, actionName := a.name, success := false
          error := some ("Max recovery attempts reached: " ++ emsg)
          tabId := some tabId, timestamp := env.now } :: s.logs := by
  have habort := cycle_failure_abort s actionId tabId env a inst tab emsg
    (MAX_RECOVERY_ATTEMPTS - 1) hfind hinst hen hglob htab hfilter hexec
    (by rw [hrec]; rfl) (by decide)
  rw [habort]
  refine ⟨rfl, ?_, ?_, ?_, ?_⟩
  · simp only [addLog_activeTimers, stopActionOnTab_activeTimers, alistGet_del_self]
  · simp only [addLog_errorRecoveryAttempts, stopActionOnTab_errorRecoveryAttempts,
      alistGet_del_self]
  · rw [instLookup_eq_of_actions_eq (addLog_actions _ _)]
    exact instLookup_stop_none s actionId tabId a hfind
  · rw [addLog_logs_no_truncation]
    · rw [stopActionOnTab_logs]
    · rw [stopActionOnTab_logs, stopActionOnTab_settings]
      exact hlogs

/-- Witness: the C5 theorem applied to the concrete two-prior-failures state
on (a1, 42) with a failing injection. -/
theorem third_consecutive_failure_aborts_witness :
    (findAction (getActions twoFailuresState) "a1" = some act5000) ∧
    (alistGet act5000.instances 42 = some inst42) ∧
    inst42.enabled = true ∧
    twoFailuresState.settings.globalEnabled = true ∧
    failEnv.tab = some tab42 ∧
    ((optStrTruthy act5000.urlFilter
        && !matchesUrlFilter tab42.url (act5000.urlFilter.getD "")) = false) ∧
    (executeAction act5000 tab42 failEnv.inject
        = Except.error "Script injection failed: boom") ∧
    (alistGet twoFailuresState.errorRecoveryAttempts (timerKey "a1" 42)
        = some (MAX_RECOVERY_ATTEMPTS - 1)) ∧
    twoFailuresState.logs.length < twoFailuresState.settings.maxLogs ∧
    ((executeAndRescheduleOnTab twoFailuresState "a1" 42 failEnv).2 = CycleExit.aborted ∧
     alistGet (executeAndRescheduleOnTab twoFailuresState "a1" 42 failEnv).1.activeTimers
       (timerKey "a1" 42) = none ∧
     alistGet (executeAndRescheduleOnTab twoFailuresState "a1" 42 failEnv).1.errorRecoveryAttempts
       (timerKey "a1" 42) = none ∧
     instLookup (executeAndRescheduleOnTab twoFailuresState "a1" 42 failEnv).1 "a1" 42 = none ∧
     (executeAndRescheduleOnTab twoFailuresState "a1" 42 failEnv).1.logs
       = { actionId := "a1", actionName := act5000.name, success := false
           error := some ("Max recovery attempts reached: " ++ "Script injection failed: boom")
           tabId := some 42, timestamp := failEnv.now } :: twoFailuresState.logs) :=
  ⟨by decide, by decide, by decide, by decide, by decide, by decide, rfl, by decide,
   by decide,
   third_consecutive_failure_aborts twoFailuresState "a1" 42 failEnv act5000 inst42 tab42
     "Script injection failed: boom" (by decide) (by decide) (by decide) (by decide)
     (by decide) (by decide) rfl (by decide) (by decide)⟩

/-! ### C6 -/

/-- C6: after a successful execution, the limits are checked in the order
repeatLimit then timeLimit, first match wins and suppresses the other.  When
repeatLimit is truthy and the incremented count reaches it, the pair is
stopped, exactly one completion notification (with the executions-flavored
reason) fires, and no timer remains armed — irrespective of the timeLimit
configuration, which is what suppression means.  When neither limit
triggers (and no progress notification is due), the pair is rescheduled. -/
theorem limit_evaluation_order (s : SysState) (actionId : String) (tabId : Nat)
    (env : CycleEnv) (a : Action) (inst : ActionInstance) (tab : TabInfo)
    (hfind : findAction (getActions s) actionId = some a)
    (hinst : alistGet a.instances tabId = some inst)
    (hen : inst.enabled = true)
    (hglob : s.settings.globalEnabled = true)
    (htab : env.tab = some tab)
    (hfilter : (optStrTruthy a.urlFilter
        && !matchesUrlFilter tab.url (a.urlFilter.getD "")) = false)
    (hexec : executeAction a tab env.inject = Except.ok ()) :
    ((optNumTruthy a.repeatLimit
        && decide (a.repeatLimit.getD 0 ≤ inst.executionCount + 1)) = true →
      (executeAndRescheduleOnTab s actionId tabId env).2 = CycleExit.repeatLimitStop ∧
      alistGet (executeAndRescheduleOnTab s actionId tabId env).1.activeTimers
        (timerKey actionId tabId) = none ∧
      instLookup (executeAndRescheduleOnTab s actionId tabId env).1 actionId tabId = none ∧
      (executeAndRescheduleOnTab s actionId tabId env).1.notificationsShown
        = ("Task Completed", "Action \"" ++ a.name ++ "\" finished after "
            ++ (toString (inst.executionCount + 1) ++ " executions on tab"))
            :: s.notificationsShown) ∧
    (∀ s', (optNumTruthy a.repeatLimit
        && decide (a.repeatLimit.getD 0 ≤ inst.executionCount + 1)) = false →
      (optNumTruthy a.timeLimit && decide (inst.startedAt ≠ 0)
        && decide (a.timeLimit.getD 0 ≤ (env.now - inst.startedAt) / 60000)) = false →
      (s.settings.notifications && (decide (inst.executionCount + 1 = 1)
        || decide (jsMod (inst.executionCount + 1) 50 = 0))) = false →
      scheduleActionOnTab (updateActionInstance s actionId tabId
          { executionCount := some (inst.executionCount + 1)
            lastExecuted := some env.now })
          a tabId env = Except.ok s' →
      executeAndRescheduleOnTab s actionId tabId env = (s', CycleExit.rescheduled)) := by
  constructor
  · intro hrl
    have hstep := cycle_success_repeat_stop s actionId tabId env a inst tab
      hfind hinst hen hglob htab hfilter hexec hrl
    rw [hstep]
    have hga2 := getActions_updateActionInstance s actionId tabId
      { executionCount := some (inst.executionCount + 1), lastExecuted := some env.now }
      a inst hfind hinst
    have hfind2 : findAction (getActions (updateActionInstance s actionId tabId
        { executionCount := some (inst.executionCount + 1), lastExecuted := some env.now }))
        actionId = some { a with instances :=
          (alistSet a.instances tabId (applyInstanceUpdate inst
            { executionCount := some (inst.executionCount + 1), lastExecuted := some env.now })) } := by
      rw [hga2]
      exact findAction_replaceFirst (getActions s) actionId a _ hfind
        (findAction_some_id (getActions s) actionId a hfind)
    refine ⟨rfl, ?_, ?_, ?_⟩
    · simp only [notifyCompletion_activeTimers, stopActionOnTab_activeTimers,
        updateActionInstance_activeTimers, alistGet_del_self]
    · rw [instLookup_eq_of_actions_eq (notifyCompletion_actions _ _ _)]
      exact instLookup_stop_none _ actionId tabId _ hfind2
    · simp only [notifyCompletion_notificationsShown, stopActionOnTab_notificationsShown,
        updateActionInstance_notificationsShown]
  · intro s' hrl htl hnot hsched
    exact cycle_success_reschedule s actionId tabId env a inst tab s'
      hfind hinst hen hglob htab hfilter hexec hrl htl hnot hsched

/-- Witness: the C6 theorem applied to the concrete repeatLimit-3 action on
tab 7, at its third successful execution, with the time limit also exceeded
(so the completion fired is demonstrably the repeat-flavored one). -/
theorem limit_evaluation_order_witness :
    (findAction (getActions repeatState) "a2" = some actRepeat) ∧
    (alistGet actRepeat.instances 7 = some repeatInst) ∧
    repeatInst.enabled = true ∧
    repeatState.settings.globalEnabled = true ∧
    okEnv7.tab = some tab7 ∧
    ((optStrTruthy actRepeat.urlFilter
        && !matchesUrlFilter tab7.url (actRepeat.urlFilter.getD "")) = false) ∧
    (executeAction actRepeat tab7 okEnv7.inject = Except.ok ()) ∧
    (((optNumTruthy actRepeat.repeatLimit
        && decide (actRepeat.repeatLimit.getD 0 ≤ repeatInst.executionCount + 1)) = true →
      (executeAndRescheduleOnTab repeatState "a2" 7 okEnv7).2 = CycleExit.repeatLimitStop ∧
      alistGet (executeAndRescheduleOnTab repeatState "a2" 7 okEnv7).1.activeTimers
        (timerKey "a2" 7) = none ∧
      instLookup (executeAndRescheduleOnTab repeatState "a2" 7 okEnv7).1 "a2" 7 = none ∧
      (executeAndRescheduleOnTab repeatState "a2" 7 okEnv7).1.notificationsShown
        = ("Task Completed", "Action \"" ++ actRepeat.name ++ "\" finished after "
            ++ (toString (repeatInst.executionCount + 1) ++ " executions on tab"))
            :: repeatState.notificationsShown) ∧
    (∀ s', (optNumTruthy actRepeat.repeatLimit
        && decide (actRepeat.repeatLimit.getD 0 ≤ repeatInst.executionCount + 1)) = false →
      (optNumTruthy actRepeat.timeLimit && decide (repeatInst.startedAt ≠ 0)
        && decide (actRepeat.timeLimit.getD 0
            ≤ (okEnv7.now - repeatInst.startedAt) / 60000)) = false →
      (repeatState.settings.notifications && (decide (repeatInst.executionCount + 1 = 1)
        || decide (jsMod (repeatInst.executionCount + 1) 50 = 0))) = false →
      scheduleActionOnTab (updateActionInstance repeatState "a2" 7
          { executionCount := some (repeatInst.executionCount + 1)
            lastExecuted := some okEnv7.now })
          actRepeat 7 okEnv7 = Except.ok s' →
      executeAndRescheduleOnTab repeatState "a2" 7 okEnv7 = (s', CycleExit.rescheduled))) :=
  ⟨by decide, by decide, by decide, by decide, by decide, by decide, rfl,
   limit_evaluation_order repeatState "a2" 7 okEnv7 actRepeat repeatInst tab7
     (by decide) (by decide) (by decide) (by decide) (by decide) (by decide) rfl⟩

/-! ### C2 -/

theorem calcInterval_act5000 : calculateInterval act5000 0 = 5000 := by
  rw [calculateInterval_eq]
  norm_num [act5000, unitMultiplier, MIN_INTERVAL_MS, MAX_INTERVAL_MS]

/-- C2 (the code bug): the success path of the cycle only resets a local
variable — it never writes zero back to the stored errorRecoveryAttempts
map.  Part one: after a successful dispatch that reschedules, the stored
counter for the pair is exactly what it was before (some n, not zero).
Part two: consequently, from any state whose stored counter is 2 (two
earlier consecutive failures, even if a success happened in between), a
single further dispatch failure reaches MAX_RECOVERY_ATTEMPTS and aborts the
pair — removing the instance — instead of retrying from Degraded(1). -/
theorem success_leaves_recovery_counter_stale (s : SysState) (actionId : String)
    (tabId : Nat) (env : CycleEnv) (a : Action) (inst : ActionInstance) (tab : TabInfo)
    (n : Nat)
    (hfind : findAction (getActions s) actionId = some a)
    (hinst : alistGet a.instances tabId = some inst)
    (hen : inst.enabled = true)
    (hglob : s.settings.globalEnabled = true)
    (htab : env.tab = some tab)
    (hfilter : (optStrTruthy a.urlFilter
        && !matchesUrlFilter tab.url (a.urlFilter.getD "")) = false)
    (hexec : executeAction a tab env.inject = Except.ok ())
    (hrl : (optNumTruthy a.repeatLimit
        && decide (a.repeatLimit.getD 0 ≤ inst.executionCount + 1)) = false)
    (htl : (optNumTruthy a.timeLimit && decide (inst.startedAt ≠ 0)
        && decide (a.timeLimit.getD 0 ≤ (env.now - inst.startedAt) / 60000)) = false)
    (hnot : (s.settings.notifications && (decide (inst.executionCount + 1 = 1)
        || decide (jsMod (inst.executionCount + 1) 50 = 0))) = false)
    (hv1 : MIN_INTERVAL_MS ≤ calculateInterval a env.random)
    (hv2 : calculateInterval a env.random ≤ MAX_INTERVAL_MS)
    (hstored : alistGet s.errorRecoveryAttempts (timerKey actionId tabId) = some n) :
    ((executeAndRescheduleOnTab s actionId tabId env).2 = CycleExit.rescheduled ∧
     alistGet (executeAndRescheduleOnTab s actionId tabId env).1.errorRecoveryAttempts
       (timerKey actionId tabId) = some n) ∧
    (∀ t env₂ b instb tabb emsgb,
      findAction (getActions t) actionId = some b →
      alistGet b.instances tabId = some instb →
      instb.enabled = true →
      t.settings.globalEnabled = true →
      env₂.tab = some tabb →
      (optStrTruthy b.urlFilter
        && !matchesUrlFilter tabb.url (b.urlFilter.getD "")) = false →
      executeAction b tabb env₂.inject = Except.error emsgb →
      alistGet t.errorRecoveryAttempts (timerKey actionId tabId) = some 2 →
      (executeAndRescheduleOnTab t actionId tabId env₂).2 = CycleExit.aborted ∧
      instLookup (executeAndRescheduleOnTab t actionId tabId env₂).1 actionId tabId
        = none) := by
  constructor
  · have hok := scheduleActionOnTab_ok
      (updateActionInstance s actionId tabId
        { executionCount := some (inst.executionCount + 1), lastExecuted := some env.now })
      a tabId env hv1 hv2
    have hstep := cycle_success_reschedule s actionId tabId env a inst tab _
      hfind hinst hen hglob htab hfilter hexec hrl htl hnot hok
    rw [hstep]
    refine ⟨rfl, ?_⟩
    simp only [updateActionInstance_errorRecoveryAttempts]
    exact hstored
  · intro t env₂ b instb tabb emsgb hfindt hinstt hent hglobt htabt hfiltert hexect hstoredt
    have habort := cycle_failure_abort t actionId tabId env₂ b instb tabb emsgb 2
      hfindt hinstt hent hglobt htabt hfiltert hexect (by rw [hstoredt]; rfl) (by decide)
    rw [habort]
    refine ⟨rfl, ?_⟩
    rw [instLookup_eq_of_actions_eq (addLog_actions _ _)]
    exact instLookup_stop_none t actionId tabId b hfindt

/-- Witness: the stale-counter theorem at the concrete state whose pair
(a1, 42) carries counter 2 and whose dispatch succeeds: the counter stays 2
after the success (the claim would require zero). -/
theorem success_leaves_recovery_counter_stale_witness :
    (findAction (getActions twoFailuresState) "a1" = some act5000) ∧
    (alistGet act5000.instances 42 = some inst42) ∧
    inst42.enabled = true ∧
    twoFailuresState.settings.globalEnabled = true ∧
    (executeAction act5000 tab42 okEnv42.inject = Except.ok ()) ∧
    (alistGet twoFailuresState.errorRecoveryAttempts (timerKey "a1" 42) = some 2) ∧
    ((executeAndRescheduleOnTab twoFailuresState "a1" 42 okEnv42).2
      = CycleExit.rescheduled ∧
     alistGet (executeAndRescheduleOnTab
         twoFailuresState "a1" 42 okEnv42).1.errorRecoveryAttempts
       (timerKey "a1" 42) = some 2) :=
  ⟨by decide, by decide, by decide, by decide, rfl, by decide,
   (success_leaves_recovery_counter_stale twoFailuresState "a1" 42 okEnv42
     act5000 inst42 tab42 2
     (by decide) (by decide) (by decide) (by decide) (by decide) (by decide) rfl
     (by decide) (by decide) (by decide)
     (by rw [show okEnv42.random = 0 from rfl, calcInterval_act5000]
         norm_num [MIN_INTERVAL_MS])
     (by rw [show okEnv42.random = 0 from rfl, calcInterval_act5000]
         norm_num [MAX_INTERVAL_MS])
     (by decide)).1⟩

/-! ### Success-path state characterization (shared by several claims) -/

theorem calculateInterval_nonrandom (a : Action) (r : ℚ) (h : a.randomize = false) :
    calculateInterval a r
      = max MIN_INTERVAL_MS (min MAX_INTERVAL_MS (a.interval * unitMultiplier a.timeUnit)) := by
  rw [calculateInterval_eq]
  simp [h]

/-- After a successful dispatch that reschedules (no limit fires, no progress
notification), the cycle exits on the reschedule branch, the stored execution
count is the old count plus one, the recovery map is untouched, and the timer
is re-armed for the key. -/
theorem cycle_success_state (s : SysState) (actionId : String) (tabId : Nat)
    (env : CycleEnv) (a : Action) (inst : ActionInstance) (tab : TabInfo)
    (hfind : findAction (getActions s) actionId = some a)
    (hinst : alistGet a.instances tabId = some inst)
    (hen : inst.enabled = true)
    (hglob : s.settings.globalEnabled = true)
    (htab : env.tab = some tab)
    (hfilter : (optStrTruthy a.urlFilter
        && !matchesUrlFilter tab.url (a.urlFilter.getD "")) = false)
    (hexec : executeAction a tab env.inject = Except.ok ())
    (hrl : (optNumTruthy a.repeatLimit
        && decide (a.repeatLimit.getD 0 ≤ inst.executionCount + 1)) = false)
    (htl : (optNumTruthy a.timeLimit && decide (inst.startedAt ≠ 0)
        && decide (a.timeLimit.getD 0 ≤ (env.now - inst.startedAt) / 60000)) = false)
    (hnot : (s.settings.notifications && (decide (inst.executionCount + 1 = 1)
        || decide (jsMod (inst.executionCount + 1) 50 = 0))) = false)
    (hv1 : MIN_INTERVAL_MS ≤ calculateInterval a env.random)
    (hv2 : calculateInterval a env.random ≤ MAX_INTERVAL_MS) :
    (executeAndRescheduleOnTab s actionId tabId env).2 = CycleExit.rescheduled ∧
    instCount (executeAndRescheduleOnTab s actionId tabId env).1 actionId tabId
      = some (inst.executionCount + 1) ∧
    (executeAndRescheduleOnTab s actionId tabId env).1.errorRecoveryAttempts
      = s.errorRecoveryAttempts ∧
    (alistGet (executeAndRescheduleOnTab s actionId tabId env).1.activeTimers
        (timerKey actionId tabId)).isSome = true := by
  have ha_id : a.id = actionId := findAction_some_id (getActions s) actionId a hfind
  have hok := scheduleActionOnTab_ok
    (updateActionInstance s actionId tabId
      { executionCount := some (inst.executionCount + 1), lastExecuted := some env.now })
    a tabId env hv1 hv2
  have hstep := cycle_success_reschedule s actionId tabId env a inst tab _
    hfind hinst hen hglob htab hfilter hexec hrl htl hnot hok
  rw [hstep]
  have hga2 := getActions_updateActionInstance s actionId tabId
    { executionCount := some (inst.executionCount + 1), lastExecuted := some env.now }
    a inst hfind hinst
  have hfind2 : findAction (getActions (updateActionInstance s actionId tabId
      { executionCount := some (inst.executionCount + 1), lastExecuted := some env.now }))
      actionId = some { a with instances :=
        (alistSet a.instances tabId (applyInstanceUpdate inst
          { executionCount := some (inst.executionCount + 1), lastExecuted := some env.now })) } := by
    rw [hga2]
    exact findAction_replaceFirst (getActions s) actionId a _ hfind ha_id
  have hinst2 : alistGet ({ a with instances :=
      (alistSet a.instances tabId (applyInstanceUpdate inst
        { executionCount := some (inst.executionCount + 1), lastExecuted := some env.now })) } : Action).instances
      tabId = some (applyInstanceUpdate inst
        { executionCount := some (inst.executionCount + 1), lastExecuted := some env.now }) :=
    alistGet_set_self _ _ _
  refine ⟨rfl, ?_, ?_, ?_⟩
  · have h2 := instCount_updateActionInstance
      (updateActionInstance s actionId tabId
        { executionCount := some (inst.executionCount + 1), lastExecuted := some env.now })
      actionId tabId
      { nextExecution := some (env.now + calculateInterval a env.random) }
      _ _ hfind2 hinst2
    rw [ha_id]
    refine Eq.trans ?_ (Eq.trans h2 ?_)
    · apply instCount_eq_of_actions_eq
      apply updateActionInstance_actions_eq
      rfl
    · rfl
  · simp only [updateActionInstance_errorRecoveryAttempts]
  · rw [ha_id]
    simp only [updateActionInstance_activeTimers]
    rw [← ha_id, alistGet_set_self]
    rfl

/-! ### C3 -/

/-- C3 counterexample: for the concrete restricted chrome scheme tab, the
cycle counts the skipped dispatch as a success: the stored execution count
goes from 0 to 1 (the claim requires it unchanged) and the pair is
rescheduled on the success path. -/
theorem restricted_scheme_counts_as_success :
    instCount restrictedState "a3" 7 = some 0 ∧
    (executeAndRescheduleOnTab restrictedState "a3" 7 restrictedEnv).2
      = CycleExit.rescheduled ∧
    instCount (executeAndRescheduleOnTab restrictedState "a3" 7 restrictedEnv).1 "a3" 7
      = some 1 := by
  have h := cycle_success_state restrictedState "a3" 7 restrictedEnv actPlain7 inst7zero
    chromeTab (by decide) (by decide) (by decide) (by decide) (by decide) (by decide)
    rfl (by decide) (by decide) (by decide)
    (by rw [show restrictedEnv.random = 0 from rfl,
          calculateInterval_nonrandom actPlain7 0 rfl]
        norm_num [actPlain7, unitMultiplier, MIN_INTERVAL_MS, MAX_INTERVAL_MS])
    (by rw [show restrictedEnv.random = 0 from rfl,
          calculateInterval_nonrandom actPlain7 0 rfl]
        norm_num [actPlain7, unitMultiplier, MIN_INTERVAL_MS, MAX_INTERVAL_MS])
  refine ⟨by decide, h.1, ?_⟩
  rw [h.2.1]
  norm_num [inst7zero]

/-- C3 (amended): when the target tab has a restricted-scheme URL, the cycle
skips the script injection but treats the outcome as a success rather than a
neutral skip: the stored execution count is incremented, the limit checks run
on the incremented count (a reached repeatLimit stops the pair), and the
stored recovery counter map is left exactly unchanged — not reset, not
incremented. -/
theorem restricted_scheme_amended (s : SysState) (actionId : String) (tabId : Nat)
    (env : CycleEnv) (a : Action) (inst : ActionInstance) (tab : TabInfo)
    (hfind : findAction (getActions s) actionId = some a)
    (hinst : alistGet a.instances tabId = some inst)
    (hen : inst.enabled = true)
    (hglob : s.settings.globalEnabled = true)
    (htab : env.tab = some tab)
    (hfilter : (optStrTruthy a.urlFilter
        && !matchesUrlFilter tab.url (a.urlFilter.getD "")) = false)
    (hid : tab.id ≠ 0)
    (hrestricted : isRestrictedUrl tab.url = true) :
    ((optNumTruthy a.repeatLimit
        && decide (a.repeatLimit.getD 0 ≤ inst.executionCount + 1)) = false →
      (optNumTruthy a.timeLimit && decide (inst.startedAt ≠ 0)
        && decide (a.timeLimit.getD 0 ≤ (env.now - inst.startedAt) / 60000)) = false →
      (s.settings.notifications && (decide (inst.executionCount + 1 = 1)
        || decide (jsMod (inst.executionCount + 1) 50 = 0))) = false →
      MIN_INTERVAL_MS ≤ calculateInterval a env.random →
      calculateInterval a env.random ≤ MAX_INTERVAL_MS →
      (executeAndRescheduleOnTab s actionId tabId env).2 = CycleExit.rescheduled ∧
      instCount (executeAndRescheduleOnTab s actionId tabId env).1 actionId tabId
        = some (inst.executionCount + 1) ∧
      (executeAndRescheduleOnTab s actionId tabId env).1.errorRecoveryAttempts
        = s.errorRecoveryAttempts) ∧
    ((optNumTruthy a.repeatLimit
        && decide (a.repeatLimit.getD 0 ≤ inst.executionCount + 1)) = true →
      (executeAndRescheduleOnTab s actionId tabId env).2 = CycleExit.repeatLimitStop ∧
      instLookup (executeAndRescheduleOnTab s actionId tabId env).1 actionId tabId
        = none) := by
  have hexec := executeAction_restricted a tab env.inject hid hrestricted
  constructor
  · intro hrl htl hnot hv1 hv2
    have h := cycle_success_state s actionId tabId env a inst tab
      hfind hinst hen hglob htab hfilter hexec hrl htl hnot hv1 hv2
    exact ⟨h.1, h.2.1, h.2.2.1⟩
  · intro hrl
    have hstep := cycle_success_repeat_stop s actionId tabId env a inst tab
      hfind hinst hen hglob htab hfilter hexec hrl
    rw [hstep]
    refine ⟨rfl, ?_⟩
    have hga2 := getActions_updateActionInstance s actionId tabId
      { executionCount := some (inst.executionCount + 1), lastExecuted := some env.now }
      a inst hfind hinst
    have hfind2 : findAction (getActions (updateActionInstance s actionId tabId
        { executionCount := some (inst.executionCount + 1), lastExecuted := some env.now }))
        actionId = some { a with instances :=
          (alistSet a.instances tabId (applyInstanceUpdate inst
            { executionCount := some (inst.executionCount + 1), lastExecuted := some env.now })) } := by
      rw [hga2]
      exact findAction_replaceFirst (getActions s) actionId a _ hfind
        (findAction_some_id (getActions s) actionId a hfind)
    rw [instLookup_eq_of_actions_eq (notifyCompletion_actions _ _ _)]
    exact instLookup_stop_none _ actionId tabId _ hfind2

/-- Witness: the amended C3 theorem applied to the concrete chrome-scheme
tab fixture. -/
theorem restricted_scheme_amended_witness :
    (findAction (getActions restrictedState) "a3" = some actPlain7) ∧
    (alistGet actPlain7.instances 7 = some inst7zero) ∧
    inst7zero.enabled = true ∧
    restrictedState.settings.globalEnabled = true ∧
    restrictedEnv.tab = some chromeTab ∧
    ((optStrTruthy actPlain7.urlFilter
        && !matchesUrlFilter chromeTab.url (actPlain7.urlFilter.getD "")) = false) ∧
    chromeTab.id ≠ 0 ∧
    isRestrictedUrl chromeTab.url = true ∧
    (((optNumTruthy actPlain7.repeatLimit
        && decide (actPlain7.repeatLimit.getD 0 ≤ inst7zero.executionCount + 1)) = false →
      (optNumTruthy actPlain7.timeLimit && decide (inst7zero.startedAt ≠ 0)
        && decide (actPlain7.timeLimit.getD 0
            ≤ (restrictedEnv.now - inst7zero.startedAt) / 60000)) = false →
      (restrictedState.settings.notifications && (decide (inst7zero.executionCount + 1 = 1)
        || decide (jsMod (inst7zero.executionCount + 1) 50 = 0))) = false →
      MIN_INTERVAL_MS ≤ calculateInterval actPlain7 restrictedEnv.random →
      calculateInterval actPlain7 restrictedEnv.random ≤ MAX_INTERVAL_MS →
      (executeAndRescheduleOnTab restrictedState "a3" 7 restrictedEnv).2
        = CycleExit.rescheduled ∧
      instCount (executeAndRescheduleOnTab restrictedState "a3" 7 restrictedEnv).1 "a3" 7
        = some (inst7zero.executionCount + 1) ∧
      (executeAndRescheduleOnTab restrictedState "a3" 7 restrictedEnv).1.errorRecoveryAttempts
        = restrictedState.errorRecoveryAttempts) ∧
    ((optNumTruthy actPlain7.repeatLimit
        && decide (actPlain7.repeatLimit.getD 0 ≤ inst7zero.executionCount + 1)) = true →
      (executeAndRescheduleOnTab restrictedState "a3" 7 restrictedEnv).2
        = CycleExit.repeatLimitStop ∧
      instLookup (executeAndRescheduleOnTab restrictedState "a3" 7 restrictedEnv).1 "a3" 7
        = none)) :=
  ⟨by decide, by decide, by decide, by decide, by decide, by decide, by decide, by decide,
   restricted_scheme_amended restrictedState "a3" 7 restrictedEnv actPlain7 inst7zero
     chromeTab (by decide) (by decide) (by decide) (by decide) (by decide) (by decide)
     (by decide) (by decide)⟩

/-! ### C4 -/

/-- C4 counterexample: with global scheduling disabled and an armed timer
left over, initializeTimers zeroes the badge but returns with the timer
entry still present — it does not clear the armed timers, contrary to the
claim. -/
theorem initTimers_disabled_leaves_timer :
    (initTimers disabledState anyEnv).activeTimers
      = [(timerKey "a1" 42, staleTimerInfo)] ∧
    ¬ ((initTimers disabledState anyEnv).activeTimers = []) ∧
    (initTimers disabledState anyEnv).badge = 0 := by
  refine ⟨by decide, ?_, by decide⟩
  intro h
  have h2 : (initTimers disabledState anyEnv).activeTimers
      = [(timerKey "a1" 42, staleTimerInfo)] := by decide
  rw [h] at h2
  exact List.noConfusion h2

/-- C4 (amended): when global scheduling is disabled and the one-shot flag
is clear, initializeTimers only sets the flag and zeroes the badge; it
returns without arming any timer and without clearing the existing timer
entries (the clearAllTimers call sits after the disabled-path early
return). -/
theorem initTimers_disabled_no_clear (s : SysState) (env : CycleEnv)
    (hInit : s.isInit = false) (hGlob : s.settings.globalEnabled = false) :
    initTimers s env = { s with isInit := true, badge := 0 } := by
  unfold initTimers
  simp only [hInit, Bool.false_eq_true, if_false, hGlob, Bool.not_false, if_true,
    updateBadge]

/-- Witness: the amended C4 theorem at the concrete disabled state with a
leftover armed timer. -/
theorem initTimers_disabled_no_clear_witness :
    disabledState.isInit = false ∧
    disabledState.settings.globalEnabled = false ∧
    initTimers disabledState anyEnv = { disabledState with isInit := true, badge := 0 } :=
  ⟨by decide, by decide,
   initTimers_disabled_no_clear disabledState anyEnv (by decide) (by decide)⟩

/-! ### C8 -/

/-- C8: arming a key that already holds a TimerEntry is last-writer-wins —
the arm succeeds, cancels the old wall-clock timer (whose id leaves the live
set, so its callback can never fire) and replaces the registry entry, and
afterwards the registry still has no duplicate keys and exactly one entry
for the key. -/
theorem scheduleActionOnTab_last_writer_wins (s : SysState) (a : Action) (tabId : Nat)
    (env : CycleEnv) (old : TimerInfo)
    (hold : alistGet s.activeTimers (timerKey a.id tabId) = some old)
    (hv1 : MIN_INTERVAL_MS ≤ calculateInterval a env.random)
    (hv2 : calculateInterval a env.random ≤ MAX_INTERVAL_MS)
    (hkeys : (s.activeTimers.map Prod.fst).Nodup)
    (hlive : s.liveTimers.Nodup)
    (hne : old.timerId ≠ s.nextTimerId) :
    ∃ s', scheduleActionOnTab s a tabId env = Except.ok s' ∧
      alistGet s'.activeTimers (timerKey a.id tabId)
        = some { timerId := s.nextTimerId
                 nextExecution := env.now + calculateInterval a env.random
                 intervalMs := calculateInterval a env.random
                 actionId := a.id, tabId := tabId } ∧
      (s'.activeTimers.map Prod.fst).Nodup ∧
      (s'.activeTimers.map Prod.fst).count (timerKey a.id tabId) = 1 ∧
      old.timerId ∉ s'.liveTimers := by
  refine ⟨_, scheduleActionOnTab_ok s a tabId env hv1 hv2, ?_, ?_, ?_, ?_⟩
  · simp only [updateActionInstance_activeTimers]
    rw [alistGet_set_self]
  · simp only [updateActionInstance_activeTimers]
    exact keys_alistSet_nodup _ _ _ hkeys
  · simp only [updateActionInstance_activeTimers]
    exact List.count_eq_one_of_mem (keys_alistSet_nodup _ _ _ hkeys)
      ((mem_keys_alistSet _ _ _ _).mpr (Or.inl rfl))
  · simp only [updateActionInstance_liveTimers]
    rw [hold]
    intro hmem
    rcases List.mem_cons.mp hmem with h | h
    · exact hne h
    · exact ((List.Nodup.mem_erase_iff hlive).mp h).1 rfl

/-- Witness: last-writer-wins at the concrete armed state: the new entry for
(a1, 42) replaces the stale one and the stale timer id 1 is no longer
live. -/
theorem scheduleActionOnTab_last_writer_wins_witness :
    (alistGet armedState.activeTimers (timerKey act5000.id 42) = some staleTimerInfo) ∧
    MIN_INTERVAL_MS ≤ calculateInterval act5000 okEnv42.random ∧
    calculateInterval act5000 okEnv42.random ≤ MAX_INTERVAL_MS ∧
    (armedState.activeTimers.map Prod.fst).Nodup ∧
    armedState.liveTimers.Nodup ∧
    staleTimerInfo.timerId ≠ armedState.nextTimerId ∧
    (∃ s', scheduleActionOnTab armedState act5000 42 okEnv42 = Except.ok s' ∧
      alistGet s'.activeTimers (timerKey act5000.id 42)
        = some { timerId := armedState.nextTimerId
                 nextExecution := okEnv42.now + calculateInterval act5000 okEnv42.random
                 intervalMs := calculateInterval act5000 okEnv42.random
                 actionId := act5000.id, tabId := 42 } ∧
      (s'.activeTimers.map Prod.fst).Nodup ∧
      (s'.activeTimers.map Prod.fst).count (timerKey act5000.id 42) = 1 ∧
      staleTimerInfo.timerId ∉ s'.liveTimers) :=
  ⟨by decide,
   by rw [show okEnv42.random = 0 from rfl, calcInterval_act5000]
      norm_num [MIN_INTERVAL_MS],
   by rw [show okEnv42.random = 0 from rfl, calcInterval_act5000]
      norm_num [MAX_INTERVAL_MS],
   by decide, by decide, by decide,
   scheduleActionOnTab_last_writer_wins armedState act5000 42 okEnv42 staleTimerInfo
     (by decide)
     (by rw [show okEnv42.random = 0 from rfl, calcInterval_act5000]
         norm_num [MIN_INTERVAL_MS])
     (by rw [show okEnv42.random = 0 from rfl, calcInterval_act5000]
         norm_num [MAX_INTERVAL_MS])
     (by decide) (by decide) (by decide)⟩

/-! ### C10 -/

theorem instLookup_updateActionInstance (t : SysState) (aid : String) (tid : Nat)
    (u : InstanceUpdate) (b : Action) (i : ActionInstance)
    (hfind : findAction (getActions t) aid = some b)
    (hinst : alistGet b.instances tid = some i) :
    instLookup (updateActionInstance t aid tid u) aid tid
      = some (applyInstanceUpdate i u) := by
  unfold instLookup
  rw [getActions_updateActionInstance t aid tid u b i hfind hinst,
    findAction_replaceFirst (getActions t) aid b
      ({ b with instances := alistSet b.instances tid (applyInstanceUpdate i u) }) hfind
      (findAction_some_id (getActions t) aid b hfind)]
  show alistGet (alistSet b.instances tid (applyInstanceUpdate i u)) tid
    = some (applyInstanceUpdate i u)
  rw [alistGet_set_self]

/-- C10: starting an (actionId, tabId) pair whose instance already exists
recreates rather than resumes it.  Part one: addActionInstance overwrites the
stored binding with a fresh instance (enabled, executionCount 0, startedAt
now), discarding prior progress, and succeeds with no instance-limit error
even when the action already holds the maximum number of instances, because
the limit guard only fires when the tab is not already bound.  Part two:
startActionOnTab routes through that overwrite and then arms the timer,
leaving the stored instance fresh except for the advisory nextExecution. -/
theorem start_recreates_existing_instance (s : SysState) (actionId : String) (tabId : Nat)
    (title : String) (a : Action) (oldInst : ActionInstance)
    (hid : actionId ≠ "") (htid : tabId ≠ 0) (htitle : title ≠ "")
    (hfind : findAction (getActions s) actionId = some a)
    (hinst : alistGet a.instances tabId = some oldInst) :
    (∀ now : ℚ, ∃ s', addActionInstance s actionId tabId (some title) now = Except.ok s' ∧
      instLookup s' actionId tabId = some
        { enabled := true, executionCount := 0, startedAt := now, tabTitle := title }) ∧
    (∀ env : CycleEnv, s.settings.globalEnabled = true →
      MIN_INTERVAL_MS ≤ calculateInterval a env.random →
      calculateInterval a env.random ≤ MAX_INTERVAL_MS →
      (startActionOnTab s actionId tabId (some title) env).2 = Except.ok () ∧
      instLookup (startActionOnTab s actionId tabId (some title) env).1 actionId tabId
        = some { enabled := true, executionCount := 0, startedAt := env.now
                 tabTitle := title
                 nextExecution := some (env.now + calculateInterval a env.random) }) := by
  have hvalid_a := mem_getActions_valid s a (findAction_mem _ _ _ hfind)
  have ha_id : a.id = actionId := findAction_some_id (getActions s) actionId a hfind
  have hguard : (decide (MAX_INSTANCES_PER_ACTION ≤ a.instances.length)
      && (alistGet a.instances tabId).isNone) = false := by
    rw [hinst]
    simp
  have hadd : ∀ now : ℚ, addActionInstance s actionId tabId (some title) now
      = Except.ok (saveActions s (replaceFirstAction (getActions s) actionId
          (startWithFresh a tabId title now))) := by
    intro now
    simp only [addActionInstance, if_neg hid, if_neg htid, hfind, hguard,
      Bool.false_eq_true, if_false]
    rfl
  have hvalid' : ∀ now : ℚ, validAction (startWithFresh a tabId title now) = true := by
    intro now
    exact validAction_set_instance a tabId (startFreshInst tabId title now) oldInst
      hinst hvalid_a
  have hfindX : ∀ now : ℚ, findAction (getActions (saveActions s
      (replaceFirstAction (getActions s) actionId (startWithFresh a tabId title now))))
      actionId = some (startWithFresh a tabId title now) := by
    intro now
    rw [getActions_saveActions,
      replaceFirstAction_filter_valid _ _ _ (mem_getActions_valid s) (hvalid' now)]
    exact findAction_replaceFirst (getActions s) actionId a _ hfind ha_id
  constructor
  · intro now
    refine ⟨_, hadd now, ?_⟩
    unfold instLookup
    rw [hfindX now]
    show alistGet (alistSet a.instances tabId (startFreshInst tabId title now)) tabId = _
    rw [alistGet_set_self]
    show some (startFreshInst tabId title now) = _
    unfold startFreshInst
    rw [if_neg htitle]
  · intro env hglob hv1 hv2
    have hok := scheduleActionOnTab_ok (saveActions s
      (replaceFirstAction (getActions s) actionId (startWithFresh a tabId title env.now)))
      a tabId env hv1 hv2
    simp only [startActionOnTab, hfind, hglob, Bool.not_true, Bool.false_eq_true,
      if_false, hadd env.now, hok]
    refine ⟨trivial, ?_⟩
    rw [instLookup_eq_of_actions_eq (refreshBadge_actions _) actionId tabId, ha_id]
    refine Eq.trans ?_ (Eq.trans (instLookup_updateActionInstance
      (saveActions s (replaceFirstAction (getActions s) actionId
        (startWithFresh a tabId title env.now)))
      actionId tabId { nextExecution := some (env.now + calculateInterval a env.random) }
      (startWithFresh a tabId title env.now) (startFreshInst tabId title env.now)
      (hfindX env.now) (alistGet_set_self _ _ _)) ?_)
    · apply instLookup_eq_of_actions_eq
      apply updateActionInstance_actions_eq
      rfl
    · show some (applyInstanceUpdate (startFreshInst tabId title env.now)
        { nextExecution := some (env.now + calculateInterval a env.random) }) = _
      unfold applyInstanceUpdate startFreshInst
      simp only [Option.getD]
      rw [if_neg htitle]

/-- C10 witness: the five-instance action act5insts already binds tab 3 with
execution count 7; both the raw overwrite and the full start succeed and
leave a fresh enabled instance with count 0. -/
theorem start_recreates_existing_instance_witness :
    (∃ s', addActionInstance fullState "a5" 3 (some "New") 111 = Except.ok s' ∧
      instLookup s' "a5" 3 = some
        { enabled := true, executionCount := 0, startedAt := 111, tabTitle := "New" }) ∧
    ((startActionOnTab fullState "a5" 3 (some "New") okEnv42).2 = Except.ok () ∧
      instLookup (startActionOnTab fullState "a5" 3 (some "New") okEnv42).1 "a5" 3
        = some { enabled := true, executionCount := 0, startedAt := okEnv42.now
                 tabTitle := "New"
                 nextExecution := some (okEnv42.now
                   + calculateInterval act5insts okEnv42.random) }) := by
  have h := start_recreates_existing_instance fullState "a5" 3 "New" act5insts wornInst
    (by decide) (by decide) (by decide) (by rfl) (by rfl)
  refine ⟨h.1 111, h.2 okEnv42 rfl ?_ ?_⟩
  · rw [calculateInterval_nonrandom act5insts okEnv42.random rfl]
    norm_num [act5insts, unitMultiplier, MIN_INTERVAL_MS, MAX_INTERVAL_MS]
  · rw [calculateInterval_nonrandom act5insts okEnv42.random rfl]
    norm_num [act5insts, unitMultiplier, MIN_INTERVAL_MS, MAX_INTERVAL_MS]

/-! ### C7: the armed-timer versus enabled-instance invariant -/

theorem enabledKeys_eq_eKeysOf (s : SysState) :
    enabledKeys s = eKeysOf (getActions s) := rfl

theorem eKeysOf_cons (a : Action) (rest : List Action) :
    eKeysOf (a :: rest)
      = (a.instances.filter (fun p => p.2.enabled)).map (fun p => timerKey a.id p.1)
        ++ eKeysOf rest := rfl

theorem enabledKeys_eq_of_actions_eq {t u : SysState} (h : t.actions = u.actions) :
    enabledKeys t = enabledKeys u := by
  unfold enabledKeys getActions
  rw [h]

theorem enabledKeys_updateBadge (s : SysState) (n : Nat) :
    enabledKeys (updateBadge s n) = enabledKeys s := rfl

theorem armedKeys_updateBadge (s : SysState) (n : Nat) :
    armedKeys (updateBadge s n) = armedKeys s := rfl

theorem foldl_cancel_actions (l : List (String × TimerInfo)) :
    ∀ t : SysState, (l.foldl (fun st q => cancelTimer st q.2.timerId) t).actions
      = t.actions := by
  induction l with
  | nil => intro t; rfl
  | cons q rest ih =>
    intro t
    rw [List.foldl_cons]
    exact (ih (cancelTimer t q.2.timerId)).trans rfl

theorem enabledKeys_clearAllTimers (s : SysState) :
    enabledKeys (clearAllTimers s) = enabledKeys s :=
  enabledKeys_eq_of_actions_eq (foldl_cancel_actions s.activeTimers s)

theorem armedKeys_clearAllTimers (s : SysState) :
    armedKeys (clearAllTimers s) = [] := rfl

/-- alistSet with an instance whose enabled flag matches the stored one
leaves the key list of the enabled bindings unchanged. -/
theorem filter_enabled_map_alistSet {β : Type} (f : Nat → β)
    (l : List (Nat × ActionInstance)) (k : Nat) (v w : ActionInstance)
    (hget : alistGet l k = some w) (hen : v.enabled = w.enabled) :
    ((alistSet l k v).filter (fun p => p.2.enabled)).map (fun p => f p.1)
      = (l.filter (fun p => p.2.enabled)).map (fun p => f p.1) := by
  induction l with
  | nil => simp [alistGet] at hget
  | cons p rest ih =>
    obtain ⟨k₀, v₀⟩ := p
    by_cases h0 : k₀ = k
    · subst h0
      rw [alistGet, if_pos rfl] at hget
      injection hget with hw
      subst hw
      rw [show alistSet ((k₀, v₀) :: rest) k₀ v = (k₀, v) :: rest by
        rw [alistSet, if_pos rfl]]
      cases hv : v₀.enabled with
      | true => simp [List.filter_cons, hen, hv]
      | false => simp [List.filter_cons, hen, hv]
    · rw [alistGet, if_neg h0] at hget
      rw [show alistSet ((k₀, v₀) :: rest) k v = (k₀, v₀) :: alistSet rest k v by
        rw [alistSet, if_neg h0]]
      cases hv : v₀.enabled with
      | true => simp [List.filter_cons, hv, ih hget]
      | false => simp [List.filter_cons, hv, ih hget]

/-- Replacing the found action by one with the same id and the same enabled
key list leaves the snapshot key list unchanged. -/
theorem eKeysOf_replaceFirst (l : List Action) (aid : String) (b b' : Action)
    (hfind : findAction l aid = some b)
    (hid : b'.id = b.id)
    (hkeys : (b'.instances.filter (fun p => p.2.enabled)).map (fun p => timerKey b'.id p.1)
      = (b.instances.filter (fun p => p.2.enabled)).map (fun p => timerKey b.id p.1)) :
    eKeysOf (replaceFirstAction l aid b') = eKeysOf l := by
  induction l with
  | nil => simp [findAction] at hfind
  | cons a₀ rest ih =>
    by_cases h0 : a₀.id = aid
    · have hb : b = a₀ := by
        unfold findAction at hfind
        rw [List.find?_cons_of_pos _ (by simpa using h0)] at hfind
        exact (Option.some.injEq _ _).mp hfind.symm
      subst hb
      rw [show replaceFirstAction (b :: rest) aid b' = b' :: rest by
        rw [replaceFirstAction, if_pos h0]]
      rw [eKeysOf_cons, eKeysOf_cons, hkeys]
    · have hfind' : findAction rest aid = some b := by
        unfold findAction at hfind ⊢
        rwa [List.find?_cons_of_neg _ (by simpa using h0)] at hfind
      rw [show replaceFirstAction (a₀ :: rest) aid b' = a₀ :: replaceFirstAction rest aid b' by
        rw [replaceFirstAction, if_neg h0]]
      rw [eKeysOf_cons, eKeysOf_cons, ih hfind']

/-- updateActionInstance never changes the enabled key list: the update
record has no enabled field and alistSet keeps the binding in place. -/
theorem enabledKeys_updateActionInstance (s : SysState) (aid : String) (tid : Nat)
    (u : InstanceUpdate) :
    enabledKeys (updateActionInstance s aid tid u) = enabledKeys s := by
  unfold updateActionInstance
  cases hf : findAction (getActions s) aid with
  | none => simp only [hf]
  | some b =>
    cases hi : alistGet b.instances tid with
    | none => simp only [hf, hi]
    | some i =>
      simp only [hf, hi]
      rw [enabledKeys_eq_eKeysOf, enabledKeys_eq_eKeysOf, getActions_saveActions,
        replaceFirstAction_filter_valid _ _ _ (mem_getActions_valid s)
          (validAction_set_instance b tid _ i hi
            (mem_getActions_valid s b (findAction_mem _ _ _ hf)))]
      exact eKeysOf_replaceFirst (getActions s) aid b _ hf rfl
        (filter_enabled_map_alistSet _ b.instances tid _ i hi rfl)

/-- A successful arm adds exactly the key of the scheduled pair to the armed
set and leaves the enabled key list unchanged. -/
theorem armed_schedule_mem (s : SysState) (a : Action) (tid : Nat) (env : CycleEnv)
    (s' : SysState)
    (h1 : MIN_INTERVAL_MS ≤ calculateInterval a env.random)
    (h2 : calculateInterval a env.random ≤ MAX_INTERVAL_MS)
    (hok : scheduleActionOnTab s a tid env = Except.ok s') :
    (∀ k, k ∈ armedKeys s' ↔ k = timerKey a.id tid ∨ k ∈ armedKeys s) ∧
    enabledKeys s' = enabledKeys s := by
  rw [scheduleActionOnTab_ok s a tid env h1 h2] at hok
  injection hok with hs'
  subst hs'
  constructor
  · intro k
    rw [show armedKeys (updateActionInstance
        { s with
          liveTimers := s.nextTimerId ::
            (match alistGet s.activeTimers (timerKey a.id tid) with
             | some old => s.liveTimers.erase old.timerId
             | none => s.liveTimers)
          nextTimerId := s.nextTimerId + 1
          activeTimers := alistSet s.activeTimers (timerKey a.id tid)
            { timerId := s.nextTimerId
              nextExecution := env.now + calculateInterval a env.random
              intervalMs := calculateInterval a env.random
              actionId := a.id, tabId := tid } }
        a.id tid { nextExecution := some (env.now + calculateInterval a env.random) })
        = (alistSet s.activeTimers (timerKey a.id tid)
            { timerId := s.nextTimerId
              nextExecution := env.now + calculateInterval a env.random
              intervalMs := calculateInterval a env.random
              actionId := a.id, tabId := tid }).map Prod.fst from by
      unfold armedKeys
      rw [updateActionInstance_activeTimers]]
    exact mem_keys_alistSet s.activeTimers (timerKey a.id tid) _ k
  · rw [enabledKeys_updateActionInstance]
    exact enabledKeys_eq_of_actions_eq rfl

/-- Folding the per-instance arming step of armAllEnabled over one action:
the armed set gains exactly the keys of the enabled instances, and the
enabled key list is preserved. -/
theorem armAll_inner (a : Action) (env : CycleEnv)
    (h1 : MIN_INTERVAL_MS ≤ calculateInterval a env.random)
    (h2 : calculateInterval a env.random ≤ MAX_INTERVAL_MS) :
    ∀ (insts : List (Nat × ActionInstance)) (acc : SysState × Nat),
      (∀ k, k ∈ armedKeys ((insts.foldl (fun acc p =>
          if p.2.enabled then
            match scheduleActionOnTab acc.1 a p.1 env with
            | Except.ok s' => (s', acc.2 + 1)
            | Except.error _ => acc
          else acc) acc)).1 ↔
        k ∈ (insts.filter (fun p => p.2.enabled)).map (fun p => timerKey a.id p.1)
          ∨ k ∈ armedKeys acc.1) ∧
      enabledKeys ((insts.foldl (fun acc p =>
          if p.2.enabled then
            match scheduleActionOnTab acc.1 a p.1 env with
            | Except.ok s' => (s', acc.2 + 1)
            | Except.error _ => acc
          else acc) acc)).1 = enabledKeys acc.1 := by
  intro insts
  induction insts with
  | nil =>
    intro acc
    exact ⟨fun k => by simp, rfl⟩
  | cons p rest ih =>
    intro acc
    cases hp : p.2.enabled with
    | true =>
      obtain ⟨s', hok⟩ : ∃ t, scheduleActionOnTab acc.1 a p.1 env = Except.ok t :=
        ⟨_, scheduleActionOnTab_ok acc.1 a p.1 env h1 h2⟩
      obtain ⟨hsm, hsk⟩ := armed_schedule_mem acc.1 a p.1 env s' h1 h2 hok
      constructor
      · intro k
        rw [List.foldl_cons]
        simp only [hp, eq_self_iff_true, if_true, hok]
        rw [(ih (s', acc.2 + 1)).1 k, hsm k,
          List.filter_cons_of_pos (by simpa using hp), List.map_cons, List.mem_cons]
        tauto
      · rw [List.foldl_cons]
        simp only [hp, eq_self_iff_true, if_true, hok]
        rw [(ih (s', acc.2 + 1)).2, hsk]
    | false =>
      constructor
      · intro k
        rw [List.foldl_cons]
        simp only [hp, Bool.false_eq_true, if_false]
        rw [(ih acc).1 k, List.filter_cons_of_neg (by simpa using hp)]
      · rw [List.foldl_cons]
        simp only [hp, Bool.false_eq_true, if_false]
        exact (ih acc).2

/-- armAllEnabled arms exactly the keys of the enabled instances of its
snapshot on top of whatever was already armed, and preserves the enabled key
list, provided every action in the snapshot has a valid computed interval. -/
theorem armAll_mem (env : CycleEnv) :
    ∀ (actions : List Action) (acc : SysState × Nat),
      (∀ a ∈ actions, MIN_INTERVAL_MS ≤ calculateInterval a env.random ∧
        calculateInterval a env.random ≤ MAX_INTERVAL_MS) →
      (∀ k, k ∈ armedKeys (armAllEnabled acc actions env).1 ↔
        k ∈ eKeysOf actions ∨ k ∈ armedKeys acc.1) ∧
      enabledKeys (armAllEnabled acc actions env).1 = enabledKeys acc.1 := by
  intro actions
  induction actions with
  | nil =>
    intro acc _
    exact ⟨fun k => by simp [armAllEnabled, eKeysOf], rfl⟩
  | cons a rest ih =>
    intro acc hv
    have ha := hv a (List.mem_cons_self a rest)
    have hconn : armAllEnabled acc (a :: rest) env
        = armAllEnabled (a.instances.foldl (fun acc p =>
            if p.2.enabled then
              match scheduleActionOnTab acc.1 a p.1 env with
              | Except.ok s' => (s', acc.2 + 1)
              | Except.error _ => acc
            else acc) acc) rest env := rfl
    obtain ⟨hin_mem, hin_keys⟩ := armAll_inner a env ha.1 ha.2 a.instances acc
    obtain ⟨hre_mem, hre_keys⟩ := ih (a.instances.foldl (fun acc p =>
            if p.2.enabled then
              match scheduleActionOnTab acc.1 a p.1 env with
              | Except.ok s' => (s', acc.2 + 1)
              | Except.error _ => acc
            else acc) acc) (fun b hb => hv b (List.mem_cons_of_mem a hb))
    constructor
    · intro k
      rw [hconn, hre_mem k, hin_mem k, eKeysOf_cons, List.mem_append]
      tauto
    · rw [hconn, hre_keys, hin_keys]

/-- C7 counterexample: at armedState the armed key set and the enabled key
set agree (both consist of the a1-42 key); after the completed
toggleGlobal-off call the armed set is empty while the stored instance keeps
enabled set, so the claimed invariant fails outside any synchronous
operation window. -/
theorem toggleGlobal_off_breaks_timer_invariant :
    armedKeys armedState = [timerKey "a1" 42] ∧
    enabledKeys armedState = [timerKey "a1" 42] ∧
    armedKeys (toggleGlobal armedState anyEnv).1 = [] ∧
    enabledKeys (toggleGlobal armedState anyEnv).1 = [timerKey "a1" 42] ∧
    armedKeys (toggleGlobal armedState anyEnv).1
      ≠ enabledKeys (toggleGlobal armedState anyEnv).1 := by
  refine ⟨rfl, rfl, rfl, rfl, by decide⟩

/-- C7 (amended): the invariant holds only under global scheduling.  A
completed toggleGlobal-off empties the armed key set while every instance
keeps its enabled flag (the enabled key list is unchanged), so armed and
enabled keys diverge whenever any instance is enabled; a completed
toggleGlobal-on re-runs initializeTimers, which clears and re-arms one timer
per enabled instance, restoring armed keys = enabled keys whenever every
stored action computes a valid interval. -/
theorem timer_invariant_toggle (s : SysState) (env : CycleEnv) :
    (s.settings.globalEnabled = true →
      (toggleGlobal s env).2 = false ∧
      armedKeys (toggleGlobal s env).1 = [] ∧
      enabledKeys (toggleGlobal s env).1 = enabledKeys s) ∧
    (s.settings.globalEnabled = false →
      (∀ a ∈ getActions s, MIN_INTERVAL_MS ≤ calculateInterval a env.random ∧
        calculateInterval a env.random ≤ MAX_INTERVAL_MS) →
      (toggleGlobal s env).2 = true ∧
      (∀ k, k ∈ armedKeys (toggleGlobal s env).1 ↔
        k ∈ enabledKeys (toggleGlobal s env).1)) := by
  constructor
  · intro hglob
    have hred : toggleGlobal s env
        = (updateBadge (clearAllTimers
            { s with settings := { s.settings with globalEnabled := false } }) 0, false) := by
      simp [toggleGlobal, hglob]
    rw [hred]
    refine ⟨rfl, ?_, ?_⟩
    · rw [armedKeys_updateBadge, armedKeys_clearAllTimers]
    · rw [enabledKeys_updateBadge, enabledKeys_clearAllTimers]
      exact enabledKeys_eq_of_actions_eq rfl
  · intro hglob hv
    have hred : toggleGlobal s env
        = (initTimers
            { s with
              settings := { s.settings with globalEnabled := true }
              isInit := false } env, true) := by
      simp [toggleGlobal, hglob]
    have hred2 : initTimers
          { s with
            settings := { s.settings with globalEnabled := true }
            isInit := false } env
        = updateBadge
            (armAllEnabled (clearAllTimers
                { s with
                  settings := { s.settings with globalEnabled := true }
                  isInit := true }, 0)
              (getActions
                { s with
                  settings := { s.settings with globalEnabled := true }
                  isInit := true }) env).1
            (armAllEnabled (clearAllTimers
                { s with
                  settings := { s.settings with globalEnabled := true }
                  isInit := true }, 0)
              (getActions
                { s with
                  settings := { s.settings with globalEnabled := true }
                  isInit := true }) env).2 := rfl
    obtain ⟨hmem, hkeys⟩ := armAll_mem env
      (getActions
        { s with
          settings := { s.settings with globalEnabled := true }
          isInit := true })
      (clearAllTimers
        { s with
          settings := { s.settings with globalEnabled := true }
          isInit := true }, 0)
      hv
    constructor
    · rw [hred]
    · intro k
      rw [hred, hred2, armedKeys_updateBadge, enabledKeys_updateBadge, hkeys, hmem k]
      rw [show armedKeys (clearAllTimers
            { s with
              settings := { s.settings with globalEnabled := true }
              isInit := true }, 0).1 = [] from armedKeys_clearAllTimers _]
      rw [show enabledKeys (clearAllTimers
            { s with
              settings := { s.settings with globalEnabled := true }
              isInit := true }, 0).1
          = eKeysOf (getActions
            { s with
              settings := { s.settings with globalEnabled := true }
              isInit := true }) from
        (enabledKeys_clearAllTimers _).trans (enabledKeys_eq_eKeysOf _)]
      simp

/-- C7 witness: the amended theorem at the concrete armed state (toggle-off
leaves the enabled key while clearing the armed key) and at the concrete
disabled state (toggle-on restores the invariant for the valid 5000 ms
action). -/
theorem timer_invariant_toggle_witness :
    ((toggleGlobal armedState anyEnv).2 = false ∧
      armedKeys (toggleGlobal armedState anyEnv).1 = [] ∧
      enabledKeys (toggleGlobal armedState anyEnv).1 = enabledKeys armedState) ∧
    ((toggleGlobal disabledState anyEnv).2 = true ∧
      (∀ k, k ∈ armedKeys (toggleGlobal disabledState anyEnv).1 ↔
        k ∈ enabledKeys (toggleGlobal disabledState anyEnv).1)) := by
  refine ⟨(timer_invariant_toggle armedState anyEnv).1 rfl,
    (timer_invariant_toggle disabledState anyEnv).2 rfl ?_⟩
  intro a ha
  have ha' : a ∈ [act5000] := ha
  have haeq : a = act5000 := by simpa using ha'
  subst haeq
  constructor
  · rw [calculateInterval_nonrandom act5000 anyEnv.random rfl]
    norm_num [act5000, unitMultiplier, MIN_INTERVAL_MS, MAX_INTERVAL_MS]
  · rw [calculateInterval_nonrandom act5000 anyEnv.random rfl]
    norm_num [act5000, unitMultiplier, MIN_INTERVAL_MS, MAX_INTERVAL_MS]

/-! ### C1 -/

/-- C1 counterexample: for the 25-hour randomized configuration and the
injected random value 0, calculateInterval returns 90,000,000 ms, strictly
above the claimed 86,400,000 ms ceiling, so the randomized delay is not
clamped to [100, 86400000]. -/
theorem calculateInterval_randomized_exceeds_cap :
    calculateInterval overflowAction 0 = 90000000 ∧
    ¬ (calculateInterval overflowAction 0 ≤ 86400000) := by
  have h : calculateInterval overflowAction 0 = 90000000 := by
    rw [calculateInterval_eq]
    norm_num [overflowAction, randMaxMs, randMinMs, unitMultiplier]
  refine ⟨h, ?_⟩
  rw [h]
  norm_num

/-- C1 (amended): when the randomized branch is not taken, calculateInterval
returns the unit-converted base interval clamped to
[MIN_INTERVAL_MS, MAX_INTERVAL_MS]; when it is taken (randomize set, a
non-zero randomize bound, positive converted max), it instead returns the
integer floor draw, which lies strictly between converted-min minus 1 and
converted-max plus 1 and is not clamped to the interval bounds. -/
theorem calculateInterval_clamped_or_randomized (a : Action) (r : ℚ)
    (h0 : 0 ≤ r) (h1 : r < 1) :
    (randomBranch a = false ∧
      calculateInterval a r
        = max MIN_INTERVAL_MS (min MAX_INTERVAL_MS (a.interval * unitMultiplier a.timeUnit)) ∧
      MIN_INTERVAL_MS ≤ calculateInterval a r ∧ calculateInterval a r ≤ MAX_INTERVAL_MS) ∨
    (randomBranch a = true ∧
      (∃ n : ℤ, calculateInterval a r = (n : ℚ)) ∧
      randMinMs a - 1 < calculateInterval a r ∧
      calculateInterval a r < randMaxMs a + 1) := by
  have hminmax := randMinMs_le_randMaxMs a
  have hclamp_lo : MIN_INTERVAL_MS
      ≤ max MIN_INTERVAL_MS (min MAX_INTERVAL_MS (a.interval * unitMultiplier a.timeUnit)) :=
    le_max_left _ _
  have hclamp_hi : max MIN_INTERVAL_MS (min MAX_INTERVAL_MS (a.interval * unitMultiplier a.timeUnit))
      ≤ MAX_INTERVAL_MS := by
    apply max_le
    · norm_num [MIN_INTERVAL_MS, MAX_INTERVAL_MS]
    · exact min_le_left _ _
  rw [calculateInterval_eq]
  by_cases hcond : (a.randomize && (a.randomizeMin != 0 || a.randomizeMax != 0)) = true
  · by_cases hpos : 0 < randMaxMs a
    · right
      rw [if_pos hcond, if_pos hpos]
      set x := r * (randMaxMs a - randMinMs a + 1) + randMinMs a with hxdef
      have hd : (0 : ℚ) < randMaxMs a - randMinMs a + 1 := by linarith
      have hx_lo : randMinMs a ≤ x := by nlinarith
      have hx_hi : x < randMaxMs a + 1 := by nlinarith
      refine ⟨?_, ⟨⌊x⌋, rfl⟩, ?_, ?_⟩
      · unfold randomBranch
        rw [hcond]
        simp [hpos]
      · have := Int.sub_one_lt_floor x
        linarith
      · have := Int.floor_le x
        linarith
    · left
      rw [if_pos hcond, if_neg hpos]
      refine ⟨?_, rfl, hclamp_lo, hclamp_hi⟩
      unfold randomBranch
      rw [hcond]
      simp [hpos]
  · left
    rw [if_neg hcond]
    refine ⟨?_, rfl, hclamp_lo, hclamp_hi⟩
    have hcondf := Bool.eq_false_iff.mpr (fun h => hcond h)
    unfold randomBranch
    rw [hcondf]
    simp

/-- Witness for the amended C1 theorem at the 25-hour configuration with
random value one half. -/
theorem calculateInterval_clamped_or_randomized_witness :
    (0 : ℚ) ≤ 1/2 ∧ (1/2 : ℚ) < 1 ∧
    ((randomBranch overflowAction = false ∧
      calculateInterval overflowAction (1/2)
        = max MIN_INTERVAL_MS (min MAX_INTERVAL_MS
            (overflowAction.interval * unitMultiplier overflowAction.timeUnit)) ∧
      MIN_INTERVAL_MS ≤ calculateInterval overflowAction (1/2) ∧
      calculateInterval overflowAction (1/2) ≤ MAX_INTERVAL_MS) ∨
    (randomBranch overflowAction = true ∧
      (∃ n : ℤ, calculateInterval overflowAction (1/2) = (n : ℚ)) ∧
      randMinMs overflowAction - 1 < calculateInterval overflowAction (1/2) ∧
      calculateInterval overflowAction (1/2) < randMaxMs overflowAction + 1)) :=
  ⟨by norm_num, by norm_num,
    calculateInterval_clamped_or_randomized overflowAction (1/2) (by norm_num) (by norm_num)⟩

end GhostInput
